import Mathlib

/-!
Verification of the Pixel-Forge PvP combat-match engine, shallowly embedded
from the repository sources:

- pixel-forge/pvp-web/shared/types/game_types.py (data model, match status,
  win condition)
- pixel-forge/pvp-web/backend/app/services/physics_engine.py (dynamic physics
  modifications)
- pixel-forge/pvp-web/backend/app/services/match_manager.py (match lifecycle,
  combat simulation)
- pixel-forge/pvp-web/backend/app/services/weapon_generator.py (weapon
  generation and balancing)
- pixel-forge/pvp-web/backend/app/main.py (weapon-generation request handler)

Modelling conventions: Python floats are modelled as rationals, Python ints as
integers.  The Python builtin int() truncates toward zero and is modelled by
pyTrunc.  Wall-clock time is passed explicitly as a rational argument named
now.  Python max(iterable, key=...) returns the first element attaining the
maximal key and is modelled by pyMax.
-/

namespace PvP

/-- Truncation toward zero: the behaviour of the Python builtin int() applied
to a float value. -/
def pyTrunc (q : ℚ) : ℤ := if q < 0 then -(⌊-q⌋) else ⌊q⌋

/-- Replace the first element of a list satisfying a predicate, modelling a
Python in-place mutation of the object found by a linear search. -/
def updateFirst (p : α → Bool) (f : α → α) : List α → List α
  | [] => []
  | x :: xs => if p x then f x :: xs else x :: updateFirst p f xs

/-- Python max(list, key) : the first element attaining the maximal key.
Later elements replace the current best only on a strictly greater key. -/
def pyMax (key : α → ℤ) : List α → Option α
  | [] => none
  | x :: xs => some (xs.foldl (fun best y => if key y > key best then y else best) x)

/-! ## Physics engine (physics_engine.py, game_types.py) -/

/-- PhysicsModType from game_types.py. -/
inductive PhysicsModType
  | gravity
  | friction
  | bounce
  | time_scale
  | weapon_behavior
deriving DecidableEq, Repr

/-- The numeric parameter map of a PhysicsModification.  The Python source
stores a Dict[str, float]; the physics engine only ever reads the keys
multiplier, scale, damage_multiplier, cooldown_multiplier and size_multiplier,
each with .get default 1.0 or a membership test, so the map is modelled by
optional fields. -/
structure ModParameters where
  multiplier : Option ℚ := none
  scale : Option ℚ := none
  damage_multiplier : Option ℚ := none
  cooldown_multiplier : Option ℚ := none
  size_multiplier : Option ℚ := none
deriving DecidableEq, Repr

/-- PhysicsModification from game_types.py (id, description and match_id
carry no behaviour and are omitted). -/
structure PhysicsModification where
  type : PhysicsModType
  parameters : ModParameters
  duration : ℚ
  start_time : ℚ
deriving DecidableEq, Repr

/-- PhysicsModification.is_active: time.time() < start_time + duration. -/
def PhysicsModification.is_active (m : PhysicsModification) (now : ℚ) : Bool :=
  decide (now < m.start_time + m.duration)

/-- The physics dict built by PhysicsEngine.calculate_current_physics. -/
structure Physics where
  gravity : ℚ
  friction : ℚ
  restitution : ℚ
  time_scale : ℚ
  damage_multiplier : ℚ
  cooldown_multiplier : ℚ
  size_multiplier : ℚ
deriving DecidableEq, Repr

/-- The base physics values of calculate_current_physics. -/
def basePhysics : Physics :=
  { gravity := 800, friction := 8/10, restitution := 3/10, time_scale := 1,
    damage_multiplier := 1, cooldown_multiplier := 1, size_multiplier := 1 }

/-- One iteration of the modification loop in calculate_current_physics:
gravity, friction and restitution multiply by the multiplier parameter
(default 1.0); time_scale is overwritten by the scale parameter (default
1.0); weapon_behavior multiplies damage, cooldown and size multipliers when
the respective key is present. -/
def applyModification (p : Physics) (m : PhysicsModification) : Physics :=
  match m.type with
  | .gravity => { p with gravity := p.gravity * m.parameters.multiplier.getD 1 }
  | .friction => { p with friction := p.friction * m.parameters.multiplier.getD 1 }
  | .bounce => { p with restitution := p.restitution * m.parameters.multiplier.getD 1 }
  | .time_scale => { p with time_scale := m.parameters.scale.getD 1 }
  | .weapon_behavior =>
    let p1 := match m.parameters.damage_multiplier with
      | some v => { p with damage_multiplier := p.damage_multiplier * v }
      | none => p
    let p2 := match m.parameters.cooldown_multiplier with
      | some v => { p1 with cooldown_multiplier := p1.cooldown_multiplier * v }
      | none => p1
    match m.parameters.size_multiplier with
      | some v => { p2 with size_multiplier := p2.size_multiplier * v }
      | none => p2

/-- PhysicsEngine.get_active_modifications: the stored modifications of the
match with the expired ones filtered out. -/
def get_active_modifications (mods : List PhysicsModification) (now : ℚ) :
    List PhysicsModification :=
  mods.filter (fun m => m.is_active now)

/-- PhysicsEngine.calculate_current_physics: fold the active modifications
over the base values in arrival order. -/
def calculate_current_physics (mods : List PhysicsModification) (now : ℚ) : Physics :=
  (get_active_modifications mods now).foldl applyModification basePhysics

/-- Specification-side view for C4: the multiplier parameters of the active
modifications of one matching type, in arrival order. -/
def multipliersOf (t : PhysicsModType) (mods : List PhysicsModification) : List ℚ :=
  (mods.filter (fun m => m.type = t)).map (fun m => m.parameters.multiplier.getD 1)

/-- Specification-side view for C4: the damage multipliers of the
weapon_behavior modifications. -/
def damageMultipliersOf (mods : List PhysicsModification) : List ℚ :=
  (mods.filter (fun m => m.type = PhysicsModType.weapon_behavior)).map
    (fun m => m.parameters.damage_multiplier.getD 1)

/-- Specification-side view for C4: the cooldown multipliers of the
weapon_behavior modifications. -/
def cooldownMultipliersOf (mods : List PhysicsModification) : List ℚ :=
  (mods.filter (fun m => m.type = PhysicsModType.weapon_behavior)).map
    (fun m => m.parameters.cooldown_multiplier.getD 1)

/-- Specification-side view for C4: the size multipliers of the
weapon_behavior modifications. -/
def sizeMultipliersOf (mods : List PhysicsModification) : List ℚ :=
  (mods.filter (fun m => m.type = PhysicsModType.weapon_behavior)).map
    (fun m => m.parameters.size_multiplier.getD 1)

/-- Specification-side view for C4: the scale of the last active time_scale
modification, 1 when there is none (overwrite semantics, last-applied wins). -/
def lastScaleOf (mods : List PhysicsModification) : ℚ :=
  match (mods.filter (fun m => m.type = PhysicsModType.time_scale)).getLast? with
  | some m => m.parameters.scale.getD 1
  | none => 1

lemma applyModification_gravity (p : Physics) (m : PhysicsModification) :
    (applyModification p m).gravity =
      if m.type = PhysicsModType.gravity then p.gravity * m.parameters.multiplier.getD 1
      else p.gravity := by
  unfold applyModification
  cases m.type <;> simp
  case weapon_behavior =>
    rcases m.parameters.damage_multiplier with _ | d <;>
      rcases m.parameters.cooldown_multiplier with _ | c <;>
      rcases m.parameters.size_multiplier with _ | s <;> simp

lemma applyModification_friction (p : Physics) (m : PhysicsModification) :
    (applyModification p m).friction =
      if m.type = PhysicsModType.friction then p.friction * m.parameters.multiplier.getD 1
      else p.friction := by
  unfold applyModification
  cases m.type <;> simp
  case weapon_behavior =>
    rcases m.parameters.damage_multiplier with _ | d <;>
      rcases m.parameters.cooldown_multiplier with _ | c <;>
      rcases m.parameters.size_multiplier with _ | s <;> simp

lemma applyModification_restitution (p : Physics) (m : PhysicsModification) :
    (applyModification p m).restitution =
      if m.type = PhysicsModType.bounce then p.restitution * m.parameters.multiplier.getD 1
      else p.restitution := by
  unfold applyModification
  cases m.type <;> simp
  case weapon_behavior =>
    rcases m.parameters.damage_multiplier with _ | d <;>
      rcases m.parameters.cooldown_multiplier with _ | c <;>
      rcases m.parameters.size_multiplier with _ | s <;> simp

lemma applyModification_time_scale (p : Physics) (m : PhysicsModification) :
    (applyModification p m).time_scale =
      if m.type = PhysicsModType.time_scale then m.parameters.scale.getD 1
      else p.time_scale := by
  unfold applyModification
  cases m.type <;> simp
  case weapon_behavior =>
    rcases m.parameters.damage_multiplier with _ | d <;>
      rcases m.parameters.cooldown_multiplier with _ | c <;>
      rcases m.parameters.size_multiplier with _ | s <;> simp

lemma applyModification_damage (p : Physics) (m : PhysicsModification) :
    (applyModification p m).damage_multiplier =
      if m.type = PhysicsModType.weapon_behavior then
        p.damage_multiplier * m.parameters.damage_multiplier.getD 1
      else p.damage_multiplier := by
  unfold applyModification
  cases m.type <;> simp
  case weapon_behavior =>
    rcases m.parameters.damage_multiplier with _ | d <;>
      rcases m.parameters.cooldown_multiplier with _ | c <;>
      rcases m.parameters.size_multiplier with _ | s <;> simp

lemma applyModification_cooldown (p : Physics) (m : PhysicsModification) :
    (applyModification p m).cooldown_multiplier =
      if m.type = PhysicsModType.weapon_behavior then
        p.cooldown_multiplier * m.parameters.cooldown_multiplier.getD 1
      else p.cooldown_multiplier := by
  unfold applyModification
  cases m.type <;> simp
  case weapon_behavior =>
    rcases m.parameters.damage_multiplier with _ | d <;>
      rcases m.parameters.cooldown_multiplier with _ | c <;>
      rcases m.parameters.size_multiplier with _ | s <;> simp

lemma applyModification_size (p : Physics) (m : PhysicsModification) :
    (applyModification p m).size_multiplier =
      if m.type = PhysicsModType.weapon_behavior then
        p.size_multiplier * m.parameters.size_multiplier.getD 1
      else p.size_multiplier := by
  unfold applyModification
  cases m.type <;> simp
  case weapon_behavior =>
    rcases m.parameters.damage_multiplier with _ | d <;>
      rcases m.parameters.cooldown_multiplier with _ | c <;>
      rcases m.parameters.size_multiplier with _ | s <;> simp

lemma foldl_applyModification_gravity (mods : List PhysicsModification) :
    ∀ p : Physics, (mods.foldl applyModification p).gravity =
      p.gravity * (multipliersOf PhysicsModType.gravity mods).prod := by
  induction mods with
  | nil => intro p; simp [multipliersOf]
  | cons m l ih =>
    intro p
    rw [List.foldl_cons, ih, applyModification_gravity]
    by_cases h : m.type = PhysicsModType.gravity <;>
      simp [multipliersOf, List.filter_cons, h, mul_assoc]

lemma foldl_applyModification_friction (mods : List PhysicsModification) :
    ∀ p : Physics, (mods.foldl applyModification p).friction =
      p.friction * (multipliersOf PhysicsModType.friction mods).prod := by
  induction mods with
  | nil => intro p; simp [multipliersOf]
  | cons m l ih =>
    intro p
    rw [List.foldl_cons, ih, applyModification_friction]
    by_cases h : m.type = PhysicsModType.friction <;>
      simp [multipliersOf, List.filter_cons, h, mul_assoc]

lemma foldl_applyModification_restitution (mods : List PhysicsModification) :
    ∀ p : Physics, (mods.foldl applyModification p).restitution =
      p.restitution * (multipliersOf PhysicsModType.bounce mods).prod := by
  induction mods with
  | nil => intro p; simp [multipliersOf]
  | cons m l ih =>
    intro p
    rw [List.foldl_cons, ih, applyModification_restitution]
    by_cases h : m.type = PhysicsModType.bounce <;>
      simp [multipliersOf, List.filter_cons, h, mul_assoc]

lemma foldl_applyModification_damage (mods : List PhysicsModification) :
    ∀ p : Physics, (mods.foldl applyModification p).damage_multiplier =
      p.damage_multiplier * (damageMultipliersOf mods).prod := by
  induction mods with
  | nil => intro p; simp [damageMultipliersOf]
  | cons m l ih =>
    intro p
    rw [List.foldl_cons, ih, applyModification_damage]
    by_cases h : m.type = PhysicsModType.weapon_behavior <;>
      simp [damageMultipliersOf, List.filter_cons, h, mul_assoc]

lemma foldl_applyModification_cooldown (mods : List PhysicsModification) :
    ∀ p : Physics, (mods.foldl applyModification p).cooldown_multiplier =
      p.cooldown_multiplier * (cooldownMultipliersOf mods).prod := by
  induction mods with
  | nil => intro p; simp [cooldownMultipliersOf]
  | cons m l ih =>
    intro p
    rw [List.foldl_cons, ih, applyModification_cooldown]
    by_cases h : m.type = PhysicsModType.weapon_behavior <;>
      simp [cooldownMultipliersOf, List.filter_cons, h, mul_assoc]

lemma foldl_applyModification_size (mods : List PhysicsModification) :
    ∀ p : Physics, (mods.foldl applyModification p).size_multiplier =
      p.size_multiplier * (sizeMultipliersOf mods).prod := by
  induction mods with
  | nil => intro p; simp [sizeMultipliersOf]
  | cons m l ih =>
    intro p
    rw [List.foldl_cons, ih, applyModification_size]
    by_cases h : m.type = PhysicsModType.weapon_behavior <;>
      simp [sizeMultipliersOf, List.filter_cons, h, mul_assoc]

lemma foldl_applyModification_time_scale (mods : List PhysicsModification) :
    ∀ p : Physics, (mods.foldl applyModification p).time_scale =
      (mods.filter (fun m => m.type = PhysicsModType.time_scale)).foldl
        (fun _ m => m.parameters.scale.getD 1) p.time_scale := by
  induction mods with
  | nil => intro p; simp
  | cons m l ih =>
    intro p
    rw [List.foldl_cons, ih, applyModification_time_scale]
    by_cases h : m.type = PhysicsModType.time_scale <;>
      simp [List.filter_cons, h]

lemma foldl_overwrite_eq_getLast (l : List PhysicsModification) (a : ℚ) :
    l.foldl (fun _ m => m.parameters.scale.getD 1) a =
      match l.getLast? with
      | some m => m.parameters.scale.getD 1
      | none => a := by
  induction l generalizing a with
  | nil => simp
  | cons m l ih =>
    rw [List.foldl_cons, ih]
    cases l with
    | nil => simp
    | cons m2 l2 =>
      obtain ⟨x, hx⟩ := Option.isSome_iff_exists.mp
        (List.getLast?_isSome.mpr (List.cons_ne_nil m2 l2))
      simp [hx]

lemma filter_is_active_idem (mods : List PhysicsModification) (now : ℚ) :
    get_active_modifications (mods.filter (fun m => m.is_active now)) now =
      get_active_modifications mods now := by
  unfold get_active_modifications
  rw [List.filter_filter]
  simp

/-- C4: currentPhysics is a pure function of the base constants and the set of
non-expired modifications.  Gravity, friction and restitution each equal the
base value times the product of the multiplier of every active modification of
the matching type; time_scale equals the scale of the last-applied active
time_scale modification (overwrite, not product); the damage, cooldown and
size multipliers equal the products over active weapon_behavior modifications;
modifications with now at or past start_time + duration never affect the
result (filtering them away first changes nothing), and the output is a
function of the modification list and the clock alone, so two calls with no
state change yield identical output. -/
theorem c4_current_physics_pure (mods : List PhysicsModification) (now : ℚ) :
    calculate_current_physics (mods.filter (fun m => m.is_active now)) now =
      calculate_current_physics mods now ∧
    (calculate_current_physics mods now).gravity =
      800 * (multipliersOf PhysicsModType.gravity (get_active_modifications mods now)).prod ∧
    (calculate_current_physics mods now).friction =
      (8/10) * (multipliersOf PhysicsModType.friction (get_active_modifications mods now)).prod ∧
    (calculate_current_physics mods now).restitution =
      (3/10) * (multipliersOf PhysicsModType.bounce (get_active_modifications mods now)).prod ∧
    (calculate_current_physics mods now).time_scale =
      lastScaleOf (get_active_modifications mods now) ∧
    (calculate_current_physics mods now).damage_multiplier =
      (damageMultipliersOf (get_active_modifications mods now)).prod ∧
    (calculate_current_physics mods now).cooldown_multiplier =
      (cooldownMultipliersOf (get_active_modifications mods now)).prod ∧
    (calculate_current_physics mods now).size_multiplier =
      (sizeMultipliersOf (get_active_modifications mods now)).prod := by
  refine ⟨?_, ?_, ?_, ?_, ?_, ?_, ?_, ?_⟩
  · unfold calculate_current_physics
    rw [filter_is_active_idem]
  · rw [calculate_current_physics, foldl_applyModification_gravity]
    simp [basePhysics]
  · rw [calculate_current_physics, foldl_applyModification_friction]
    simp [basePhysics]
  · rw [calculate_current_physics, foldl_applyModification_restitution]
    simp [basePhysics]
  · rw [calculate_current_physics, foldl_applyModification_time_scale,
      foldl_overwrite_eq_getLast]
    unfold lastScaleOf basePhysics
    rfl
  · rw [calculate_current_physics, foldl_applyModification_damage]
    simp [basePhysics]
  · rw [calculate_current_physics, foldl_applyModification_cooldown]
    simp [basePhysics]
  · rw [calculate_current_physics, foldl_applyModification_size]
    simp [basePhysics]

/-! ## Data model (game_types.py) and match operations (match_manager.py) -/

/-- MatchStatus from game_types.py. -/
inductive MatchStatus
  | waiting
  | starting
  | active
  | finished
  | cancelled
deriving DecidableEq, Repr

/-- WeaponCategory from game_types.py. -/
inductive WeaponCategory
  | projectile
  | melee
  | area_effect
  | utility
  | magic
deriving DecidableEq, Repr

/-- WeaponProperties from game_types.py (effect_parameters carries no
behaviour in the verified code paths and is omitted). -/
structure WeaponProperties where
  damage : ℤ
  speed : ℤ
  range : ℤ
  ammo : ℤ
  cooldown : ℤ
  special_effect : String
deriving DecidableEq, Repr

/-- Weapon from game_types.py (sprite_url and generated_at carry no combat
behaviour and are omitted). -/
structure Weapon where
  id : String
  name : String
  category : WeaponCategory
  properties : WeaponProperties
  balance_score : ℚ
  player_id : String
deriving DecidableEq, Repr

/-- PlayerState from game_types.py.  The position and velocity dicts are
flattened into posx, posy, velx, vely. -/
structure PlayerState where
  id : String
  name : String
  health : ℤ
  posx : ℚ
  posy : ℚ
  velx : ℚ
  vely : ℚ
  weapons : List Weapon
  weapon_cooldown : ℚ
  is_alive : Bool
  kills : ℤ
  deaths : ℤ
deriving DecidableEq, Repr

/-- Projectile from game_types.py. -/
structure Projectile where
  id : String
  weapon_id : String
  player_id : String
  posx : ℚ
  posy : ℚ
  velx : ℚ
  vely : ℚ
  damage : ℤ
  created_at : ℚ
  expires_at : ℚ
deriving DecidableEq, Repr

/-- Projectile.is_expired: time.time() > expires_at. -/
def Projectile.is_expired (p : Projectile) (now : ℚ) : Bool :=
  decide (now > p.expires_at)

/-- MatchState from game_types.py.  The physics modification list lives in
the PhysicsEngine (keyed by match id) and is passed to the operations that
need it; last_master_prompt carries no verified behaviour and is omitted. -/
structure MatchState where
  id : String
  status : MatchStatus
  players : List PlayerState
  projectiles : List Projectile
  start_time : Option ℚ
  end_time : Option ℚ
  winner_id : Option String
deriving DecidableEq, Repr

/-- MatchState.get_duration: end minus start, where end is end_time when set,
otherwise the current time; 0.0 when the match has not started. -/
def MatchState.get_duration (m : MatchState) (now : ℚ) : ℚ :=
  match m.start_time with
  | some s => m.end_time.getD now - s
  | none => 0

/-- The alive players of a match, in list order. -/
def alivePlayers (m : MatchState) : List PlayerState :=
  m.players.filter (fun pl => pl.is_alive)

/-- MatchState.is_finished: at most one player alive, or duration above 90
seconds, or the status already FINISHED. -/
def MatchState.is_finished (m : MatchState) (now : ℚ) : Bool :=
  decide ((alivePlayers m).length ≤ 1) || decide (m.get_duration now > 90) ||
    decide (m.status = MatchStatus.finished)

/-- MatchState.get_winner: the sole alive player; with zero alive and a
nonempty player list, the first player with maximal kills; past the time
limit with two or more alive, the first player with maximal health; otherwise
none. -/
def MatchState.get_winner (m : MatchState) (now : ℚ) : Option PlayerState :=
  let alive := alivePlayers m
  if alive.length = 1 then alive.head?
  else if alive.length = 0 then
    if m.players.isEmpty then none else pyMax (fun pl => pl.kills) m.players
  else if m.get_duration now > 90 then pyMax (fun pl => pl.health) m.players
  else none

/-- MatchManager._end_match: set FINISHED and end_time, then record the
winner id from get_winner (which therefore sees end_time = now). -/
def endMatch (m : MatchState) (now : ℚ) : MatchState :=
  let m1 : MatchState := { m with status := MatchStatus.finished, end_time := some now }
  { m1 with winner_id := (m1.get_winner now).map (fun w => w.id) }

/-- The win-condition step of MatchManager.update_matches: an ACTIVE match
that is_finished is ended.  Matches in any other status are untouched. -/
def checkWinCondition (m : MatchState) (now : ℚ) : MatchState :=
  if m.status = MatchStatus.active ∧ m.is_finished now = true then endMatch m now else m

/-- MatchManager.remove_player restricted to one match: drop the player from
the player list, and force the end of an ACTIVE match left with fewer than
two players. -/
def removePlayer (pid : String) (m : MatchState) (now : ℚ) : MatchState :=
  let m1 : MatchState := { m with players := m.players.filter (fun pl => pl.id ≠ pid) }
  if m1.players.length < 2 ∧ m1.status = MatchStatus.active then endMatch m1 now else m1

/-- The per-player reset loop of MatchManager.start_match: slot 0 spawns at
x=200, slot 1 at x=1000, both at y=500; every player gets health 100, the
alive flag, an empty weapon list and a cleared weapon cooldown. -/
def resetPlayersForStart : ℕ → List PlayerState → List PlayerState
  | _, [] => []
  | i, pl :: rest =>
    { pl with
      posx := if i = 0 then 200 else if i = 1 then 1000 else pl.posx,
      posy := if i ≤ 1 then 500 else pl.posy,
      health := 100, is_alive := true, weapons := [], weapon_cooldown := 0 } ::
      resetPlayersForStart (i + 1) rest

/-- MatchManager.start_match: requires at least two players (else returns
unchanged, the Python method returns False); sets ACTIVE, records start_time
and resets every player. -/
def startMatch (m : MatchState) (now : ℚ) : MatchState :=
  if m.players.length < 2 then m
  else { m with status := MatchStatus.active, start_time := some now,
                players := resetPlayersForStart 0 m.players }

/-- A fresh PlayerState as built by MatchManager.find_or_create_match. -/
def newPlayer (pid : String) (x y : ℚ) : PlayerState :=
  { id := pid, name := "Player_" ++ pid, health := 100, posx := x, posy := y,
    velx := 0, vely := 0, weapons := [], weapon_cooldown := 0,
    is_alive := true, kills := 0, deaths := 0 }

/-- The join branch of MatchManager.find_or_create_match restricted to one
match: a WAITING match with fewer than two players receives the new player at
the slot-1 spawn (1000, 500); any other match is returned unchanged. -/
def joinMatch (m : MatchState) (pid : String) : MatchState :=
  if m.status = MatchStatus.waiting ∧ m.players.length < 2 then
    { m with players := m.players ++ [newPlayer pid 1000 500] }
  else m

/-! ## Combat simulation (match_manager.py) -/

/-- One projectile integration step of MatchManager._update_projectiles:
gravity on the vertical velocity, then position advanced by velocity, dt and
time scale. -/
def updateProjectile (phys : Physics) (p : Projectile) : Projectile :=
  let dt : ℚ := 1/60
  let vy := p.vely + phys.gravity * dt
  { p with vely := vy,
           posx := p.posx + p.velx * dt * phys.time_scale,
           posy := p.posy + vy * dt * phys.time_scale }

/-- The arena-bounds test of _update_projectiles (arena 1200 by 600). -/
def projectileInBounds (p : Projectile) : Bool :=
  decide (0 ≤ p.posx) && decide (p.posx ≤ 1200) &&
    decide (0 ≤ p.posy) && decide (p.posy ≤ 600)

/-- MatchManager._update_projectiles: drop expired projectiles, integrate the
rest, and keep only those still inside the arena. -/
def updateProjectiles (m : MatchState) (phys : Physics) (now : ℚ) : MatchState :=
  { m with projectiles :=
      ((m.projectiles.filter (fun p => p.is_expired now = false)).map
        (updateProjectile phys)).filter projectileInBounds }

/-- MatchManager._check_projectile_player_collision: axis-aligned box overlap,
player box 16 around the centre, projectile box 4. -/
def collide (proj : Projectile) (pl : PlayerState) : Bool :=
  decide (proj.posx + 4 > pl.posx - 16) && decide (proj.posx - 4 < pl.posx + 16) &&
    decide (proj.posy + 4 > pl.posy - 16) && decide (proj.posy - 4 < pl.posy + 16)

/-- The hit test of the inner loop of MatchManager._check_collisions: a
different, alive player whose box overlaps the projectile. -/
def eligibleTarget (proj : Projectile) (pl : PlayerState) : Bool :=
  decide (pl.id ≠ proj.player_id) && pl.is_alive && collide proj pl

/-- The first player hit by a projectile, if any (the inner for loop breaks
after the first hit). -/
def hitTarget (proj : Projectile) (players : List PlayerState) : Option PlayerState :=
  players.find? (eligibleTarget proj)

/-- MatchManager._apply_damage: final damage int(projectile.damage times the
current damage multiplier); health clamped at 0; on reaching 0 the target is
marked dead with deaths incremented and the shooter (looked up by id, when
still present) gains a kill. -/
def applyDamage (phys : Physics) (proj : Projectile) (target : PlayerState)
    (players : List PlayerState) : List PlayerState :=
  let final_damage := pyTrunc ((proj.damage : ℚ) * phys.damage_multiplier)
  let newHealth := max 0 (target.health - final_damage)
  let players1 := updateFirst (fun q => q = target)
    (fun q =>
      if newHealth ≤ 0 then
        { q with health := newHealth, is_alive := false, deaths := q.deaths + 1 }
      else { q with health := newHealth }) players
  if newHealth ≤ 0 then
    updateFirst (fun q => q.id = proj.player_id)
      (fun q => { q with kills := q.kills + 1 }) players1
  else players1

/-- Remove the first occurrence of a projectile, modelling the guarded
list.remove call of _check_collisions (a no-op when absent). -/
def removeFirst (proj : Projectile) : List Projectile → List Projectile
  | [] => []
  | q :: rest => if q = proj then rest else q :: removeFirst proj rest

/-- The body of the outer loop of MatchManager._check_collisions for one
projectile of the iteration snapshot: damage the first eligible player and
remove the projectile, or change nothing. -/
def collisionStep (phys : Physics) (st : List PlayerState × List Projectile)
    (proj : Projectile) : List PlayerState × List Projectile :=
  match hitTarget proj st.1 with
  | some target => (applyDamage phys proj target st.1, removeFirst proj st.2)
  | none => st

/-- MatchManager._check_collisions: iterate over a snapshot copy of the
projectile list, mutating the live player and projectile lists. -/
def checkCollisions (phys : Physics) (m : MatchState) : MatchState :=
  let st := m.projectiles.foldl (collisionStep phys) (m.players, m.projectiles)
  { m with players := st.1, projectiles := st.2 }

/-- MatchManager.get_player_state: the first player of the match with the
given id. -/
def getPlayerState (m : MatchState) (pid : String) : Option PlayerState :=
  m.players.find? (fun pl => pl.id = pid)

/-- The weapon lookup loop of MatchManager.use_weapon: the first owned weapon
with the given id. -/
def findWeapon (ws : List Weapon) (wid : String) : Option Weapon :=
  ws.find? (fun w => w.id = wid)

/-- The directional-input fields of a player_input message. -/
structure InputData where
  left : Bool
  right : Bool
  jump : Bool
deriving DecidableEq, Repr

/-- The per-player body of MatchManager.handle_player_input: set horizontal
velocity from input or decay it by friction, jump when nearly grounded,
integrate position, apply gravity, clamp to the ground line y=500 and to the
arena bounds. -/
def movePlayer (phys : Physics) (inp : InputData) (pl : PlayerState) : PlayerState :=
  let move_speed := 200 * phys.time_scale
  let vx := if inp.left then -move_speed
            else if inp.right then move_speed
            else pl.velx * phys.friction
  let vy0 := if inp.jump ∧ |pl.vely| < 10 then -400 * phys.time_scale else pl.vely
  let dt : ℚ := 1/60
  let px := pl.posx + vx * dt
  let py := pl.posy + vy0 * dt
  let vy1 := vy0 + phys.gravity * dt
  let grounded := decide (py > 500)
  { pl with velx := vx,
            vely := if grounded then 0 else vy1,
            posx := max 16 (min (1200 - 16) px),
            posy := max 16 (min (600 - 16) (if grounded then 500 else py)) }

/-- MatchManager.handle_player_input: only for an ACTIVE match and an alive
player; the found player object is mutated in place. -/
def handlePlayerInput (m : MatchState) (pid : String) (inp : InputData)
    (phys : Physics) : MatchState :=
  if m.status ≠ MatchStatus.active then m
  else
    match getPlayerState m pid with
    | none => m
    | some pl =>
      if pl.is_alive = false then m
      else
        let players1 := updateFirst (fun q => q.id = pid) (movePlayer phys inp) m.players
        { m with players := players1 }

/-- MatchManager._create_projectile.  The Python code computes
distance = math.sqrt(dx*dx + dy*dy) as a float; square roots are irrational
in general, so the computed distance is passed as the parameter dist (exact
whenever dx*dx + dy*dy is a perfect square).  The zero-distance early return
mirrors the source.  The direction multiplier read from the physics dict is
always the default 1.0 because calculate_current_physics never writes a
direction_multiplier key, and the size multiplier is read but never used. -/
def createProjectile (m : MatchState) (pl : PlayerState) (w : Weapon)
    (tx ty dist : ℚ) (phys : Physics) (now : ℚ) : MatchState :=
  if dist = 0 then m
  else
    let dx := (tx - pl.posx) / dist
    let dy := (ty - pl.posy) / dist
    let projectile_speed := (w.properties.speed : ℚ) * 5
    { m with projectiles := m.projectiles ++
        [{ id := "proj", weapon_id := w.id, player_id := pl.id,
           posx := pl.posx, posy := pl.posy,
           velx := dx * projectile_speed, vely := dy * projectile_speed,
           damage := pyTrunc ((w.properties.damage : ℚ) * phys.damage_multiplier),
           created_at := now,
           expires_at := now + (w.properties.range : ℚ) / projectile_speed }] }

/-- The range test of MatchManager._create_area_effect: the Python code
compares math.sqrt(dx*dx + dy*dy) <= range, equivalent to a nonnegative range
whose square bounds the squared distance. -/
def inAreaRange (w : Weapon) (tx ty : ℚ) (pl : PlayerState) : Bool :=
  decide (0 ≤ w.properties.range) &&
    decide ((pl.posx - tx) ^ 2 + (pl.posy - ty) ^ 2 ≤ ((w.properties.range : ℚ)) ^ 2)

/-- The target loop of MatchManager._create_area_effect: every other alive
player within range takes int(weapon damage times damage multiplier), health
clamped at 0; a target reaching 0 is marked dead with deaths incremented, and
the count of such deaths is returned so the shooter can be credited. -/
def areaLoop (w : Weapon) (dm : ℚ) (sid : String) (tx ty : ℚ) :
    List PlayerState → List PlayerState × ℕ
  | [] => ([], 0)
  | pl :: rest =>
    let r := areaLoop w dm sid tx ty rest
    if pl.id ≠ sid ∧ pl.is_alive = true ∧ inAreaRange w tx ty pl = true then
      let damage := pyTrunc ((w.properties.damage : ℚ) * dm)
      let h := max 0 (pl.health - damage)
      if h ≤ 0 then
        ({ pl with health := h, is_alive := false, deaths := pl.deaths + 1 } :: r.1,
          r.2 + 1)
      else ({ pl with health := h } :: r.1, r.2)
    else (pl :: r.1, r.2)

/-- MatchManager._create_area_effect: damage all other alive players in range
and credit each resulting death to the shooter object (the first player with
the shooter id). -/
def createAreaEffect (w : Weapon) (dm : ℚ) (sid : String) (tx ty : ℚ)
    (players : List PlayerState) : List PlayerState :=
  let r := areaLoop w dm sid tx ty players
  updateFirst (fun q => q.id = sid)
    (fun q => { q with kills := q.kills + (r.2 : ℤ) }) r.1

/-- MatchManager.use_weapon: only in an ACTIVE match, only for an alive
player owning the weapon; projectile and magic weapons spawn a projectile,
area_effect weapons damage players in range, melee and utility weapons have
no action; in every case the weapon cooldown timestamp of the player is set
to now + cooldown/1000 times the cooldown multiplier.  No branch reads the
current weapon_cooldown of the player. -/
def useWeapon (m : MatchState) (pid wid : String) (tx ty dist : ℚ)
    (phys : Physics) (now : ℚ) : MatchState :=
  if m.status ≠ MatchStatus.active then m
  else
    match getPlayerState m pid with
    | none => m
    | some pl =>
      if pl.is_alive = false then m
      else
        match findWeapon pl.weapons wid with
        | none => m
        | some w =>
          let m1 :=
            if w.category = WeaponCategory.projectile ∨ w.category = WeaponCategory.magic then
              createProjectile m pl w tx ty dist phys now
            else if w.category = WeaponCategory.area_effect then
              { m with players := createAreaEffect w phys.damage_multiplier pl.id tx ty m.players }
            else m
          let newCooldown := now + (w.properties.cooldown : ℚ) / 1000 * phys.cooldown_multiplier
          let players2 := updateFirst (fun q => q.id = pid)
            (fun q => { q with weapon_cooldown := newCooldown }) m1.players
          { m1 with players := players2 }

/-! ## Weapon generation (weapon_generator.py) -/

/-- Containment of one character list inside another. -/
def charsInfix (needle : List Char) : List Char → Bool
  | [] => needle.isEmpty
  | c :: rest => needle.isPrefixOf (c :: rest) || charsInfix needle rest

/-- Python substring containment: needle in haystack. -/
def strContains (hay needle : String) : Bool :=
  charsInfix needle.data hay.data

/-- ASCII lower-casing of one character, the effect of Python str.lower() on
the identifiers appearing in the weapon templates. -/
def charLower (c : Char) : Char :=
  match c with
  | 'A' => 'a' | 'B' => 'b' | 'C' => 'c' | 'D' => 'd' | 'E' => 'e'
  | 'F' => 'f' | 'G' => 'g' | 'H' => 'h' | 'I' => 'i' | 'J' => 'j'
  | 'K' => 'k' | 'L' => 'l' | 'M' => 'm' | 'N' => 'n' | 'O' => 'o'
  | 'P' => 'p' | 'Q' => 'q' | 'R' => 'r' | 'S' => 's' | 'T' => 't'
  | 'U' => 'u' | 'V' => 'v' | 'W' => 'w' | 'X' => 'x' | 'Y' => 'y'
  | 'Z' => 'z' | other => other

/-- Python str.lower(). -/
def strLower (s : String) : String :=
  String.mk (s.data.map charLower)

/-- Helper of pySplitWords: accumulate the current word (reversed) while
scanning the characters. -/
def splitOnSpaces (cur : List Char) : List Char → List String
  | [] => if cur.isEmpty then [] else [String.mk cur.reverse]
  | c :: rest =>
    if c = ' ' then
      if cur.isEmpty then splitOnSpaces [] rest
      else String.mk cur.reverse :: splitOnSpaces [] rest
    else splitOnSpaces (c :: cur) rest

/-- Python str.split() on spaces, dropping empty words. -/
def pySplitWords (s : String) : List String :=
  splitOnSpaces [] s.data

/-- One entry of WeaponGenerator._create_weapon_templates. -/
structure WeaponTemplate where
  name : String
  category : WeaponCategory
  keywords : List String
  category_hints : List String
  damage : ℤ
  speed : ℤ
  range : ℤ
  ammo : ℤ
  cooldown : ℤ
  special_effect : String
deriving DecidableEq, Repr

/-- Template 0 of _create_weapon_templates, also the default fallback. -/
def fireSwordTemplate : WeaponTemplate :=
  { name := "Fire Sword", category := WeaponCategory.melee,
    keywords := ["fire", "flame", "sword", "blade", "burn"],
    category_hints := ["sword", "blade", "melee"],
    damage := 65, speed := 70, range := 40, ammo := 1,
    cooldown := 2000, special_effect := "burn_damage" }

/-- WeaponGenerator._create_weapon_templates. -/
def weaponTemplates : List WeaponTemplate :=
  [fireSwordTemplate,
   { name := "Ice Spear", category := WeaponCategory.projectile,
     keywords := ["ice", "frost", "spear", "cold", "freeze"],
     category_hints := ["spear", "arrow", "projectile"],
     damage := 55, speed := 85, range := 120, ammo := 8,
     cooldown := 1800, special_effect := "freeze_target" },
   { name := "Lightning Hammer", category := WeaponCategory.melee,
     keywords := ["lightning", "thunder", "hammer", "electric", "shock"],
     category_hints := ["hammer", "mace", "melee"],
     damage := 75, speed := 45, range := 50, ammo := 1,
     cooldown := 2800, special_effect := "area_lightning" },
   { name := "Poison Dagger", category := WeaponCategory.melee,
     keywords := ["poison", "toxic", "dagger", "venom", "green"],
     category_hints := ["dagger", "knife", "blade"],
     damage := 40, speed := 90, range := 30, ammo := 1,
     cooldown := 1500, special_effect := "poison_dot" },
   { name := "Magic Shield", category := WeaponCategory.utility,
     keywords := ["shield", "protect", "defense", "magic", "barrier"],
     category_hints := ["shield", "defense", "utility"],
     damage := 20, speed := 40, range := 60, ammo := 1,
     cooldown := 3500, special_effect := "damage_reduction" },
   { name := "Explosive Bomb", category := WeaponCategory.area_effect,
     keywords := ["bomb", "explosive", "boom", "blast", "explode"],
     category_hints := ["bomb", "grenade", "explosive"],
     damage := 60, speed := 30, range := 80, ammo := 3,
     cooldown := 3000, special_effect := "area_explosion" }]

/-- The scoring loop of WeaponGenerator._find_best_template: 3 points per
prompt word occurring in the template name, 2 per keyword occurring in the
prompt, 1 per prompt word listed among the category hints. -/
def templateScore (prompt : String) (t : WeaponTemplate) : ℤ :=
  let words := pySplitWords prompt
  3 * ((words.filter (fun w => strContains (strLower t.name) w)).length : ℤ) +
    2 * ((t.keywords.filter (fun k => strContains prompt (strLower k))).length : ℤ) +
    ((words.filter (fun w => t.category_hints.contains w)).length : ℤ)

/-- WeaponGenerator._find_best_template: the template with the strictly best
positive score (first wins ties), else template 0. -/
def findBestTemplate (prompt : String) : WeaponTemplate :=
  let best := weaponTemplates.foldl
    (fun (acc : Option WeaponTemplate × ℤ) t =>
      if templateScore prompt t > acc.2 then (some t, templateScore prompt t) else acc)
    (none, 0)
  match best.1 with
  | some t => t
  | none => fireSwordTemplate

/-- WeaponGenerator._generate_from_template: the matched template with a
prompt-hash variation (hash(prompt) % 20 - 10, passed here as the parameter
variation because the Python string hash is salted per process) added to
damage and speed, both clamped. -/
def generateFromTemplate (prompt : String) (variation : ℤ) : WeaponProperties :=
  let t := findBestTemplate prompt
  { damage := max 15 (min 85 (t.damage + variation)),
    speed := max 20 (min 95 (t.speed + variation)),
    range := t.range, ammo := t.ammo, cooldown := t.cooldown,
    special_effect := t.special_effect }

/-- WeaponGenerator._create_emergency_weapon stat block. -/
def emergencyWeaponProperties : WeaponProperties :=
  { damage := 50, speed := 60, range := 100, ammo := 10,
    cooldown := 2000, special_effect := "none" }

/-- The stat clamp applied to AI-returned values in _generate_with_ai. -/
def aiClampProperties (damage speed range ammo cooldown : ℤ)
    (effect : String) : WeaponProperties :=
  { damage := max 15 (min 85 damage), speed := max 20 (min 95 speed),
    range := max 30 (min 180 range), ammo := max 3 (min 25 ammo),
    cooldown := max 1500 (min 4000 cooldown), special_effect := effect }

/-- The special-effect multiplier table of _calculate_balance_score (unknown
effects default to 1.0). -/
def effectMultiplier (effect : String) : ℚ :=
  if effect = "burn_damage" then 12/10
  else if effect = "freeze_target" then 115/100
  else if effect = "area_explosion" then 13/10
  else if effect = "poison_dot" then 125/100
  else if effect = "area_lightning" then 125/100
  else if effect = "damage_reduction" then 8/10
  else if effect = "none" then 1
  else 1

/-- WeaponGenerator._calculate_balance_score: weighted normalized power score
times the effect multiplier, times 100, clamped to [0, 100]. -/
def calculateBalanceScore (p : WeaponProperties) : ℚ :=
  let damage_norm := (p.damage : ℚ) / 100
  let speed_norm := (p.speed : ℚ) / 100
  let range_norm := (p.range : ℚ) / 200
  let cooldown_penalty := (5000 - (p.cooldown : ℚ)) / 5000
  let power_score := damage_norm * (4/10) + speed_norm * (3/10) +
    range_norm * (2/10) + cooldown_penalty * (1/10)
  min 100 (max 0 (power_score * effectMultiplier p.special_effect * 100))

/-- WeaponGenerator._apply_balance_nerf: damage times 0.8 and cooldown times
1.2, both truncated to int, with no re-clamping. -/
def applyBalanceNerf (p : WeaponProperties) : WeaponProperties :=
  { p with damage := pyTrunc ((p.damage : ℚ) * (8/10)),
           cooldown := pyTrunc ((p.cooldown : ℚ) * (12/10)) }

/-- The balance pass of _generate_with_ai: a weapon scoring above 80 receives
one nerf pass. -/
def aiBalancePass (p : WeaponProperties) : WeaponProperties :=
  if calculateBalanceScore p > 80 then applyBalanceNerf p else p

/-! ## Weapon-generation request handler (main.py handle_weapon_generation) -/

/-- The outcomes of handle_weapon_generation visible to the requester. -/
inductive GenOutcome
  | invalidPrompt
  | matchNotFound
  | playerNotFound
  | rateLimited (remaining : ℤ)
  | generationFailed
  | success (newCooldown : ℚ)
deriving DecidableEq, Repr

/-- main.py handle_weapon_generation, after the prompt has been stripped:
reject an empty or over-20-character prompt as invalid; then require the
match and the player; reject while the clock is before the weapon cooldown
of the player, reporting int(cooldown - now) remaining seconds; otherwise
run generation and on success set the cooldown of the player to now + 12. -/
def handle_weapon_generation (prompt : String) (now : ℚ) (matchFound : Bool)
    (playerFound : Option PlayerState) (genSucceeds : Bool) : GenOutcome :=
  if prompt.data.isEmpty || decide (prompt.data.length > 20) then GenOutcome.invalidPrompt
  else if matchFound = false then GenOutcome.matchNotFound
  else
    match playerFound with
    | none => GenOutcome.playerNotFound
    | some pl =>
      if pl.weapon_cooldown > now then
        GenOutcome.rateLimited (pyTrunc (pl.weapon_cooldown - now))
      else if genSucceeds then GenOutcome.success (now + 12)
      else GenOutcome.generationFailed

/-! ## Generic list lemmas -/

lemma updateFirst_length (p : α → Bool) (f : α → α) (l : List α) :
    (updateFirst p f l).length = l.length := by
  induction l with
  | nil => rfl
  | cons x xs ih =>
    unfold updateFirst
    by_cases h : p x = true <;> simp [h, ih]

lemma updateFirst_get? (p : α → Bool) (f : α → α) (l : List α) (i : ℕ) :
    (updateFirst p f l).get? i = l.get? i ∨
      ∃ a, l.get? i = some a ∧ (updateFirst p f l).get? i = some (f a) ∧
        p a = true := by
  induction l generalizing i with
  | nil => left; rfl
  | cons x xs ih =>
    cases hpx : p x with
    | true =>
      cases i with
      | zero => right; exact ⟨x, rfl, by simp [updateFirst, hpx], hpx⟩
      | succ j => left; simp [updateFirst, hpx]
    | false =>
      cases i with
      | zero => left; simp [updateFirst, hpx]
      | succ j =>
        have hstep : (updateFirst p f (x :: xs)).get? (j + 1) =
            (updateFirst p f xs).get? j := by
          simp [updateFirst, hpx]
        rw [hstep]
        exact ih j

lemma updateFirst_get?_first (p : α → Bool) (f : α → α) (l : List α) (i : ℕ)
    (a : α) (ha : l.get? i = some a) (hp : p a = true)
    (hbefore : ∀ j, j < i → ∀ b, l.get? j = some b → p b = false) :
    (updateFirst p f l).get? i = some (f a) := by
  induction l generalizing i with
  | nil => simp at ha
  | cons x xs ih =>
    cases i with
    | zero =>
      obtain rfl : x = a := by simpa using ha
      simp [updateFirst, hp]
    | succ j =>
      have hx : p x = false := hbefore 0 (Nat.succ_pos j) x rfl
      have hstep : (updateFirst p f (x :: xs)).get? (j + 1) =
          (updateFirst p f xs).get? j := by
        simp [updateFirst, hx]
      rw [hstep]
      exact ih j (by simpa using ha)
        (fun k hk b hb => hbefore (k + 1) (by omega) b (by simpa using hb))

lemma updateFirst_map_eq (p : α → Bool) (f : α → α) (g : α → β) (l : List α)
    (hf : ∀ a, g (f a) = g a) : (updateFirst p f l).map g = l.map g := by
  induction l with
  | nil => rfl
  | cons x xs ih =>
    unfold updateFirst
    by_cases h : p x = true <;> simp [h, ih, hf]

lemma find?_index (p : α → Bool) :
    ∀ (l : List α) (a : α), l.find? p = some a →
      ∃ i, l.get? i = some a ∧ p a = true ∧
        ∀ j, j < i → ∀ b, l.get? j = some b → p b = false := by
  intro l
  induction l with
  | nil => intro a ha; simp at ha
  | cons x xs ih =>
    intro a ha
    by_cases hx : p x = true
    · rw [List.find?_cons_of_pos _ hx] at ha
      obtain rfl : x = a := by injection ha
      exact ⟨0, rfl, hx, fun j hj => absurd hj (Nat.not_lt_zero j)⟩
    · rw [List.find?_cons_of_neg _ (by simpa using hx)] at ha
      obtain ⟨i, hget, hpa, hbefore⟩ := ih a ha
      refine ⟨i + 1, by simpa using hget, hpa, ?_⟩
      intro j hj b hb
      cases j with
      | zero =>
        obtain rfl : x = b := by simpa using hb
        simpa using hx
      | succ k =>
        exact hbefore k (by omega) b (by simpa using hb)

lemma updateFirst_get?_other (p : α → Bool) (f : α → α) (l : List α) (i : ℕ)
    (a : α) (ha : l.get? i = some a) (hp : p a = true)
    (hbefore : ∀ j, j < i → ∀ b, l.get? j = some b → p b = false) :
    ∀ s, s ≠ i → (updateFirst p f l).get? s = l.get? s := by
  induction l generalizing i with
  | nil => intro s _; simp [updateFirst]
  | cons x xs ih =>
    intro s hs
    cases i with
    | zero =>
      obtain rfl : x = a := by simpa using ha
      cases s with
      | zero => exact absurd rfl hs
      | succ t => simp [updateFirst, hp]
    | succ j =>
      have hx : p x = false := hbefore 0 (Nat.succ_pos j) x rfl
      cases s with
      | zero => simp [updateFirst, hx]
      | succ t =>
        have hstep : (updateFirst p f (x :: xs)).get? (t + 1) =
            (updateFirst p f xs).get? t := by
          simp [updateFirst, hx]
        rw [hstep]
        have := ih j (by simpa using ha)
          (fun k hk b hb => hbefore (k + 1) (by omega) b (by simpa using hb))
          t (by omega)
        rw [this]
        rfl

lemma foldl_rel {α β : Type} (R : β → β → Prop) (hrefl : ∀ b, R b b)
    (htrans : ∀ a b c, R a b → R b c → R a c) (f : β → α → β) (l : List α)
    (hstep : ∀ b a, a ∈ l → R b (f b a)) (b : β) : R b (l.foldl f b) := by
  induction l generalizing b with
  | nil => exact hrefl b
  | cons x xs ih =>
    exact htrans _ _ _ (hstep b x (by simp))
      (ih (fun b2 a ha => hstep b2 a (by simp [ha])) (f b x))

lemma pyMax_foldl_mem (key : α → ℤ) (l : List α) :
    ∀ x, l.foldl (fun best y => if key y > key best then y else best) x = x ∨
      l.foldl (fun best y => if key y > key best then y else best) x ∈ l := by
  induction l with
  | nil => intro x; left; rfl
  | cons y ys ih =>
    intro x
    rw [List.foldl_cons]
    rcases ih (if key y > key x then y else x) with h | h
    · rw [h]
      by_cases hc : key y > key x
      · right; rw [if_pos hc]; simp
      · left; rw [if_neg hc]
    · right; simp [h]

lemma pyMax_foldl_ge (key : α → ℤ) (l : List α) :
    ∀ x, key x ≤ key (l.foldl (fun best y => if key y > key best then y else best) x) ∧
      ∀ z ∈ l, key z ≤ key (l.foldl (fun best y => if key y > key best then y else best) x) := by
  induction l with
  | nil => intro x; exact ⟨le_refl _, by simp⟩
  | cons y ys ih =>
    intro x
    rw [List.foldl_cons]
    obtain ⟨h1, h2⟩ := ih (if key y > key x then y else x)
    have hx : key x ≤ key (if key y > key x then y else x) := by
      by_cases hc : key y > key x
      · rw [if_pos hc]; exact le_of_lt hc
      · rw [if_neg hc]
    have hy : key y ≤ key (if key y > key x then y else x) := by
      by_cases hc : key y > key x
      · rw [if_pos hc]
      · rw [if_neg hc]; omega
    refine ⟨le_trans hx h1, ?_⟩
    intro z hz
    rcases List.mem_cons.mp hz with rfl | hz
    · exact le_trans hy h1
    · exact h2 z hz

lemma pyMax_spec (key : α → ℤ) (l : List α) (h : l ≠ []) :
    ∃ w, pyMax key l = some w ∧ w ∈ l ∧ ∀ z ∈ l, key z ≤ key w := by
  cases l with
  | nil => exact absurd rfl h
  | cons x xs =>
    refine ⟨_, rfl, ?_, ?_⟩
    · rcases pyMax_foldl_mem key xs x with h | h
      · rw [h]; simp
      · simp [h]
    · intro z hz
      obtain ⟨h1, h2⟩ := pyMax_foldl_ge key xs x
      rcases List.mem_cons.mp hz with rfl | hz
      · exact h1
      · exact h2 z hz

/-! ## Status bookkeeping lemmas for the match operations -/

lemma endMatch_status (m : MatchState) (now : ℚ) :
    (endMatch m now).status = MatchStatus.finished := rfl

lemma is_finished_iff (m : MatchState) (now : ℚ) :
    m.is_finished now = true ↔
      (alivePlayers m).length ≤ 1 ∨ m.get_duration now > 90 ∨
        m.status = MatchStatus.finished := by
  unfold MatchState.is_finished
  simp
  tauto

lemma createProjectile_status (m : MatchState) (pl : PlayerState) (w : Weapon)
    (tx ty dist : ℚ) (phys : Physics) (now : ℚ) :
    (createProjectile m pl w tx ty dist phys now).status = m.status := by
  unfold createProjectile
  split <;> rfl

lemma useWeapon_status (m : MatchState) (pid wid : String) (tx ty dist : ℚ)
    (phys : Physics) (now : ℚ) :
    (useWeapon m pid wid tx ty dist phys now).status = m.status := by
  unfold useWeapon
  split
  · rfl
  · split
    · rfl
    · split
      · rfl
      · split
        · rfl
        · split
          · exact createProjectile_status ..
          · split <;> rfl

lemma handlePlayerInput_status (m : MatchState) (pid : String) (inp : InputData)
    (phys : Physics) :
    (handlePlayerInput m pid inp phys).status = m.status := by
  unfold handlePlayerInput
  split
  · rfl
  · split
    · rfl
    · split <;> rfl

lemma updateProjectiles_status (m : MatchState) (phys : Physics) (now : ℚ) :
    (updateProjectiles m phys now).status = m.status := rfl

lemma checkCollisions_status (phys : Physics) (m : MatchState) :
    (checkCollisions phys m).status = m.status := rfl

lemma joinMatch_status (m : MatchState) (pid : String) :
    (joinMatch m pid).status = m.status := by
  unfold joinMatch
  split <;> rfl

/-- C1: a match transitions to FINISHED exactly through the win-condition
check of the update loop (at most one alive player, or duration above 90
seconds, while ACTIVE) or through a player removal that drops an ACTIVE match
below two players; starting, joining, player input, weapon use, projectile
integration and collision resolution never set FINISHED. -/
theorem c1_finished_transitions (m : MatchState) (now : ℚ) (pid pid2 wid : String)
    (inp : InputData) (phys : Physics) (tx ty dist : ℚ)
    (hm : m.status ≠ MatchStatus.finished) :
    ((checkWinCondition m now).status = MatchStatus.finished ↔
      m.status = MatchStatus.active ∧
        ((alivePlayers m).length ≤ 1 ∨ m.get_duration now > 90)) ∧
    ((removePlayer pid m now).status = MatchStatus.finished ↔
      m.status = MatchStatus.active ∧
        (m.players.filter (fun pl => pl.id ≠ pid)).length < 2) ∧
    (startMatch m now).status ≠ MatchStatus.finished ∧
    (joinMatch m pid2).status = m.status ∧
    (handlePlayerInput m pid2 inp phys).status = m.status ∧
    (useWeapon m pid2 wid tx ty dist phys now).status = m.status ∧
    (updateProjectiles m phys now).status = m.status ∧
    (checkCollisions phys m).status = m.status := by
  refine ⟨?_, ?_, ?_, joinMatch_status m pid2, handlePlayerInput_status m pid2 inp phys,
    useWeapon_status m pid2 wid tx ty dist phys now,
    updateProjectiles_status m phys now, checkCollisions_status phys m⟩
  · unfold checkWinCondition
    by_cases hc : m.status = MatchStatus.active ∧ m.is_finished now = true
    · rw [if_pos hc]
      simp only [endMatch_status, true_iff]
      refine ⟨hc.1, ?_⟩
      rcases (is_finished_iff m now).mp hc.2 with h | h | h
      · exact Or.inl h
      · exact Or.inr h
      · exact absurd h hm
    · rw [if_neg hc]
      constructor
      · intro h; exact absurd h hm
      · rintro ⟨h1, h2⟩
        exact absurd ⟨h1, (is_finished_iff m now).mpr (by tauto)⟩ hc
  · unfold removePlayer
    by_cases hc : (m.players.filter (fun pl => pl.id ≠ pid)).length < 2 ∧
        m.status = MatchStatus.active
    · rw [if_pos (by simpa using hc)]
      simp only [endMatch_status, true_iff]
      exact ⟨hc.2, hc.1⟩
    · rw [if_neg (by simpa using hc)]
      constructor
      · intro h; exact absurd h hm
      · rintro ⟨h1, h2⟩; exact absurd ⟨h2, h1⟩ hc
  · unfold startMatch
    split
    · exact hm
    · simp

/-- C2: winner selection.  A sole survivor wins; with zero survivors the
winner is a player with maximal kills among the (nonempty) player list, picked
deterministically (Python max keeps the first maximum); past the 90-second
limit with two or more alive, a player with maximal current health wins. -/
theorem c2_winner_selection (m : MatchState) (now : ℚ) :
    (∀ pl, alivePlayers m = [pl] → m.get_winner now = some pl) ∧
    ((alivePlayers m).length = 0 → m.players ≠ [] →
      ∃ w, m.get_winner now = some w ∧ w ∈ m.players ∧
        ∀ p ∈ m.players, p.kills ≤ w.kills) ∧
    (2 ≤ (alivePlayers m).length → m.get_duration now > 90 →
      ∃ w, m.get_winner now = some w ∧ w ∈ m.players ∧
        ∀ p ∈ m.players, p.health ≤ w.health) := by
  refine ⟨?_, ?_, ?_⟩
  · intro pl hpl
    unfold MatchState.get_winner
    rw [hpl]
    rfl
  · intro h0 hne
    unfold MatchState.get_winner
    rw [if_neg (by omega), if_pos h0, if_neg (by simpa [List.isEmpty_iff] using hne)]
    exact pyMax_spec _ m.players hne
  · intro h2 hdur
    unfold MatchState.get_winner
    have hne : m.players ≠ [] := by
      intro hcontra
      have halive : alivePlayers m = [] := by
        unfold alivePlayers
        rw [hcontra]
        simp
      rw [halive] at h2
      simp at h2
    rw [if_neg (by omega), if_neg (by omega), if_pos hdur]
    exact pyMax_spec _ m.players hne

/-! ## Health and death bookkeeping (C3, C10) -/

lemma pyTrunc_of_nonneg (q : ℚ) (h : 0 ≤ q) : pyTrunc q = ⌊q⌋ := by
  unfold pyTrunc
  rw [if_neg (not_lt.mpr h)]

lemma pyTrunc_nonneg (q : ℚ) (h : 0 ≤ q) : 0 ≤ pyTrunc q := by
  rw [pyTrunc_of_nonneg q h]
  exact Int.floor_nonneg.mpr h

/-- All player healths lie in the inclusive range 0 to 100. -/
def healthBounded (ps : List PlayerState) : Prop :=
  ∀ pl ∈ ps, 0 ≤ pl.health ∧ pl.health ≤ 100

/-- Positionwise health relation: same roster length, and a player with
nonnegative health never gains health and never drops below 0. -/
def healthEvolution (ps ps' : List PlayerState) : Prop :=
  ps'.length = ps.length ∧
  ∀ i pl pl', ps.get? i = some pl → ps'.get? i = some pl' →
    0 ≤ pl.health → pl'.health ≤ pl.health ∧ 0 ≤ pl'.health

/-- Positionwise: no health increases. -/
def healthsNonincreasing (ps ps' : List PlayerState) : Prop :=
  ps'.length = ps.length ∧
  ∀ i pl pl', ps.get? i = some pl → ps'.get? i = some pl' →
    pl'.health ≤ pl.health

/-- Positionwise: a dead player keeps health and deaths and stays dead. -/
def deadUntouched (ps ps' : List PlayerState) : Prop :=
  ps'.length = ps.length ∧
  ∀ i pl pl', ps.get? i = some pl → ps'.get? i = some pl' →
    pl.is_alive = false →
      pl'.health = pl.health ∧ pl'.deaths = pl.deaths ∧ pl'.is_alive = false

lemma healthEvolution_refl (ps : List PlayerState) : healthEvolution ps ps := by
  refine ⟨rfl, ?_⟩
  intro i pl pl' h1 h2 h0
  rw [h1] at h2
  obtain rfl : pl = pl' := by injection h2
  exact ⟨le_refl _, h0⟩

lemma get?_some_of_lt {l : List α} {i : ℕ} (h : i < l.length) :
    ∃ a, l.get? i = some a := by
  rw [List.get?_eq_get h]
  exact ⟨_, rfl⟩

lemma healthEvolution_trans (a b c : List PlayerState)
    (h1 : healthEvolution a b) (h2 : healthEvolution b c) :
    healthEvolution a c := by
  obtain ⟨hl1, hp1⟩ := h1
  obtain ⟨hl2, hp2⟩ := h2
  refine ⟨hl2.trans hl1, ?_⟩
  intro i pl pl' ha hc h0
  have hib : i < b.length := by
    rw [hl1]
    exact (List.get?_eq_some.mp ha).1
  obtain ⟨plb, hb⟩ := get?_some_of_lt hib
  obtain ⟨le1, n1⟩ := hp1 i pl plb ha hb h0
  obtain ⟨le2, n2⟩ := hp2 i plb pl' hb hc n1
  exact ⟨le2.trans le1, n2⟩

lemma deadUntouched_refl (ps : List PlayerState) : deadUntouched ps ps := by
  refine ⟨rfl, ?_⟩
  intro i pl pl' h1 h2 hd
  rw [h1] at h2
  obtain rfl : pl = pl' := by injection h2
  exact ⟨rfl, rfl, hd⟩

lemma deadUntouched_trans (a b c : List PlayerState)
    (h1 : deadUntouched a b) (h2 : deadUntouched b c) :
    deadUntouched a c := by
  obtain ⟨hl1, hp1⟩ := h1
  obtain ⟨hl2, hp2⟩ := h2
  refine ⟨hl2.trans hl1, ?_⟩
  intro i pl pl' ha hc hd
  have hib : i < b.length := by
    rw [hl1]
    exact (List.get?_eq_some.mp ha).1
  obtain ⟨plb, hb⟩ := get?_some_of_lt hib
  obtain ⟨e1, e2, e3⟩ := hp1 i pl plb ha hb hd
  obtain ⟨f1, f2, f3⟩ := hp2 i plb pl' hb hc e3
  exact ⟨f1.trans e1, f2.trans e2, f3⟩

lemma healthEvolution_updateFirst (p : PlayerState → Bool)
    (f : PlayerState → PlayerState) (l : List PlayerState)
    (hf : ∀ a, p a = true → 0 ≤ a.health → (f a).health ≤ a.health ∧ 0 ≤ (f a).health) :
    healthEvolution l (updateFirst p f l) := by
  refine ⟨updateFirst_length p f l, ?_⟩
  intro i pl pl' h1 h2 h0
  rcases updateFirst_get? p f l i with h | ⟨a, ha, ha', hpa⟩
  · rw [h1] at h
    rw [h] at h2
    obtain rfl : pl = pl' := by injection h2
    exact ⟨le_refl _, h0⟩
  · rw [h1] at ha
    injection ha with ha
    cases ha
    rw [ha'] at h2
    injection h2 with h2
    cases h2
    exact hf pl hpa h0

lemma deadUntouched_updateFirst_alive (p : PlayerState → Bool)
    (f : PlayerState → PlayerState) (l : List PlayerState)
    (hp : ∀ a, p a = true → a.is_alive = true) :
    deadUntouched l (updateFirst p f l) := by
  refine ⟨updateFirst_length p f l, ?_⟩
  intro i pl pl' h1 h2 hd
  rcases updateFirst_get? p f l i with h | ⟨a, ha, ha', hpa⟩
  · rw [h1] at h
    rw [h] at h2
    obtain rfl : pl = pl' := by injection h2
    exact ⟨rfl, rfl, hd⟩
  · rw [h1] at ha
    injection ha with ha
    cases ha
    rw [hp pl hpa] at hd
    exact absurd hd (by simp)

lemma deadUntouched_updateFirst_preserve (p : PlayerState → Bool)
    (f : PlayerState → PlayerState) (l : List PlayerState)
    (hf : ∀ a, (f a).health = a.health ∧ (f a).deaths = a.deaths ∧
      (f a).is_alive = a.is_alive) :
    deadUntouched l (updateFirst p f l) := by
  refine ⟨updateFirst_length p f l, ?_⟩
  intro i pl pl' h1 h2 hd
  rcases updateFirst_get? p f l i with h | ⟨a, ha, ha', hpa⟩
  · rw [h1] at h
    rw [h] at h2
    obtain rfl : pl = pl' := by injection h2
    exact ⟨rfl, rfl, hd⟩
  · rw [h1] at ha
    injection ha with ha
    cases ha
    rw [ha'] at h2
    injection h2 with h2
    cases h2
    obtain ⟨e1, e2, e3⟩ := hf pl
    exact ⟨e1, e2, e3.trans hd⟩

lemma eligibleTarget_alive (proj : Projectile) (pl : PlayerState)
    (h : eligibleTarget proj pl = true) : pl.is_alive = true := by
  unfold eligibleTarget at h
  simp only [Bool.and_eq_true] at h
  exact h.1.2

lemma applyDamage_healthEvolution (phys : Physics) (proj : Projectile)
    (target : PlayerState) (players : List PlayerState)
    (hd : 0 ≤ (proj.damage : ℚ) * phys.damage_multiplier) :
    healthEvolution players (applyDamage phys proj target players) := by
  have hfd : 0 ≤ pyTrunc ((proj.damage : ℚ) * phys.damage_multiplier) :=
    pyTrunc_nonneg _ hd
  simp only [applyDamage]
  split
  · refine healthEvolution_trans _ _ _
      (healthEvolution_updateFirst _ _ _ ?_)
      (healthEvolution_updateFirst _ _ _ ?_)
    · intro a hpa h0
      have : a = target := by simpa using hpa
      subst this
      exact ⟨max_le h0 (by omega), le_max_left 0 _⟩
    · intro a _ h0
      exact ⟨le_refl _, h0⟩
  · refine healthEvolution_updateFirst _ _ _ ?_
    intro a hpa h0
    have : a = target := by simpa using hpa
    subst this
    exact ⟨max_le h0 (by omega), le_max_left 0 _⟩

lemma applyDamage_deadUntouched (phys : Physics) (proj : Projectile)
    (target : PlayerState) (players : List PlayerState)
    (halive : target.is_alive = true) :
    deadUntouched players (applyDamage phys proj target players) := by
  simp only [applyDamage]
  split
  · refine deadUntouched_trans _ _ _
      (deadUntouched_updateFirst_alive _ _ _ ?_)
      (deadUntouched_updateFirst_preserve _ _ _ ?_)
    · intro a hpa
      have : a = target := by simpa using hpa
      subst this
      exact halive
    · intro a
      exact ⟨rfl, rfl, rfl⟩
  · refine deadUntouched_updateFirst_alive _ _ _ ?_
    intro a hpa
    have : a = target := by simpa using hpa
    subst this
    exact halive

lemma collisionStep_healthEvolution (phys : Physics)
    (st : List PlayerState × List Projectile) (proj : Projectile)
    (hd : 0 ≤ (proj.damage : ℚ) * phys.damage_multiplier) :
    healthEvolution st.1 (collisionStep phys st proj).1 := by
  unfold collisionStep
  cases h : hitTarget proj st.1 with
  | none => exact healthEvolution_refl st.1
  | some target => exact applyDamage_healthEvolution phys proj target st.1 hd

lemma collisionStep_deadUntouched (phys : Physics)
    (st : List PlayerState × List Projectile) (proj : Projectile) :
    deadUntouched st.1 (collisionStep phys st proj).1 := by
  unfold collisionStep
  cases h : hitTarget proj st.1 with
  | none => exact deadUntouched_refl st.1
  | some target =>
    have halive : target.is_alive = true :=
      eligibleTarget_alive proj target (List.find?_some h)
    exact applyDamage_deadUntouched phys proj target st.1 halive

lemma checkCollisions_healthEvolution (phys : Physics) (m : MatchState)
    (hdm : 0 ≤ phys.damage_multiplier)
    (hpr : ∀ proj ∈ m.projectiles, 0 ≤ proj.damage) :
    healthEvolution m.players (checkCollisions phys m).players := by
  unfold checkCollisions
  exact foldl_rel (fun a b => healthEvolution a.1 b.1)
    (fun b => healthEvolution_refl b.1)
    (fun a b c => healthEvolution_trans a.1 b.1 c.1)
    (collisionStep phys) m.projectiles
    (fun st proj hmem => collisionStep_healthEvolution phys st proj
      (mul_nonneg (by exact_mod_cast hpr proj hmem) hdm))
    (m.players, m.projectiles)

lemma checkCollisions_deadUntouched (phys : Physics) (m : MatchState) :
    deadUntouched m.players (checkCollisions phys m).players := by
  unfold checkCollisions
  exact foldl_rel (fun a b => deadUntouched a.1 b.1)
    (fun b => deadUntouched_refl b.1)
    (fun a b c => deadUntouched_trans a.1 b.1 c.1)
    (collisionStep phys) m.projectiles
    (fun st proj _ => collisionStep_deadUntouched phys st proj)
    (m.players, m.projectiles)

lemma areaLoop_length (w : Weapon) (dm : ℚ) (sid : String) (tx ty : ℚ)
    (l : List PlayerState) : (areaLoop w dm sid tx ty l).1.length = l.length := by
  induction l with
  | nil => rfl
  | cons pl rest ih =>
    simp only [areaLoop]
    split
    · split <;> simp [ih]
    · simp [ih]

lemma areaLoop_get? (w : Weapon) (dm : ℚ) (sid : String) (tx ty : ℚ)
    (l : List PlayerState) (i : ℕ) (pl pl' : PlayerState)
    (h1 : l.get? i = some pl) (h2 : (areaLoop w dm sid tx ty l).1.get? i = some pl') :
    pl' = pl ∨
      (pl.is_alive = true ∧
        pl'.health = max 0 (pl.health - pyTrunc ((w.properties.damage : ℚ) * dm)) ∧
        pl'.deaths = pl.deaths + (if pl'.health ≤ 0 then 1 else 0) ∧
        pl'.is_alive = decide (0 < pl'.health) ∧ pl'.kills = pl.kills) := by
  induction l generalizing i with
  | nil => simp at h1
  | cons x xs ih =>
    unfold areaLoop at h2
    by_cases hc : x.id ≠ sid ∧ x.is_alive = true ∧ inAreaRange w tx ty x = true
    · rw [if_pos hc] at h2
      by_cases hkill :
          max 0 (x.health - pyTrunc ((w.properties.damage : ℚ) * dm)) ≤ 0
      · rw [if_pos hkill] at h2
        cases i with
        | zero =>
          obtain rfl : pl = x := Eq.symm (by simpa using h1)
          have : pl' = { pl with
              health := max 0 (pl.health - pyTrunc ((w.properties.damage : ℚ) * dm)),
              is_alive := false, deaths := pl.deaths + 1 } := by
            simpa using h2.symm
          subst this
          right
          refine ⟨hc.2.1, rfl, ?_, ?_, rfl⟩
          · split
            · simp
            · rename_i hcontra
              exact absurd hkill hcontra
          · have hpos : ¬ (0 : ℤ) <
                0 ⊔ (pl.health - pyTrunc ((w.properties.damage : ℚ) * dm)) := by
              omega
            exact (decide_eq_false hpos).symm
        | succ j => exact ih j (by simpa using h1) (by simpa using h2)
      · rw [if_neg hkill] at h2
        cases i with
        | zero =>
          obtain rfl : pl = x := Eq.symm (by simpa using h1)
          have : pl' = { pl with
              health := max 0 (pl.health - pyTrunc ((w.properties.damage : ℚ) * dm)) } := by
            simpa using h2.symm
          subst this
          right
          refine ⟨hc.2.1, rfl, ?_, ?_, rfl⟩
          · split
            · rename_i hcontra
              exact absurd hcontra hkill
            · simp
          · have hpos : (0 : ℤ) <
                0 ⊔ (pl.health - pyTrunc ((w.properties.damage : ℚ) * dm)) := by
              omega
            show pl.is_alive = _
            rw [hc.2.1]
            exact (decide_eq_true hpos).symm
        | succ j => exact ih j (by simpa using h1) (by simpa using h2)
    · rw [if_neg hc] at h2
      cases i with
      | zero =>
        obtain rfl : pl = x := Eq.symm (by simpa using h1)
        left
        simpa using h2.symm
      | succ j => exact ih j (by simpa using h1) (by simpa using h2)

lemma areaLoop_healthEvolution (w : Weapon) (dm : ℚ) (sid : String) (tx ty : ℚ)
    (l : List PlayerState) (hd : 0 ≤ (w.properties.damage : ℚ) * dm) :
    healthEvolution l (areaLoop w dm sid tx ty l).1 := by
  refine ⟨areaLoop_length w dm sid tx ty l, ?_⟩
  intro i pl pl' h1 h2 h0
  have hfd : 0 ≤ pyTrunc ((w.properties.damage : ℚ) * dm) := pyTrunc_nonneg _ hd
  rcases areaLoop_get? w dm sid tx ty l i pl pl' h1 h2 with rfl | ⟨_, hh, _⟩
  · exact ⟨le_refl _, h0⟩
  · rw [hh]
    omega

lemma areaLoop_deadUntouched (w : Weapon) (dm : ℚ) (sid : String) (tx ty : ℚ)
    (l : List PlayerState) : deadUntouched l (areaLoop w dm sid tx ty l).1 := by
  refine ⟨areaLoop_length w dm sid tx ty l, ?_⟩
  intro i pl pl' h1 h2 hd
  rcases areaLoop_get? w dm sid tx ty l i pl pl' h1 h2 with rfl | ⟨halive, _⟩
  · exact ⟨rfl, rfl, hd⟩
  · rw [halive] at hd
    exact absurd hd (by simp)

lemma createAreaEffect_healthEvolution (w : Weapon) (dm : ℚ) (sid : String)
    (tx ty : ℚ) (l : List PlayerState) (hd : 0 ≤ (w.properties.damage : ℚ) * dm) :
    healthEvolution l (createAreaEffect w dm sid tx ty l) := by
  unfold createAreaEffect
  refine healthEvolution_trans _ _ _ (areaLoop_healthEvolution w dm sid tx ty l hd)
    (healthEvolution_updateFirst _ _ _ ?_)
  intro a _ h0
  exact ⟨le_refl _, h0⟩

lemma createAreaEffect_deadUntouched (w : Weapon) (dm : ℚ) (sid : String)
    (tx ty : ℚ) (l : List PlayerState) :
    deadUntouched l (createAreaEffect w dm sid tx ty l) := by
  unfold createAreaEffect
  refine deadUntouched_trans _ _ _ (areaLoop_deadUntouched w dm sid tx ty l)
    (deadUntouched_updateFirst_preserve _ _ _ ?_)
  intro a
  exact ⟨rfl, rfl, rfl⟩

lemma healthEvolution_bounds (ps ps' : List PlayerState)
    (h : healthEvolution ps ps') (hb : healthBounded ps) :
    healthBounded ps' ∧ healthsNonincreasing ps ps' := by
  obtain ⟨hl, hp⟩ := h
  constructor
  · intro pl' hmem
    obtain ⟨n, hget⟩ := List.mem_iff_get.mp hmem
    have h2 : ps'.get? (n : ℕ) = some pl' := by
      rw [List.get?_eq_get n.isLt, hget]
    have hips : (n : ℕ) < ps.length := by
      have := n.isLt
      omega
    obtain ⟨pl, h1⟩ := get?_some_of_lt hips
    obtain ⟨hb1, hb2⟩ := hb pl (List.get?_mem h1)
    obtain ⟨le1, n1⟩ := hp (n : ℕ) pl pl' h1 h2 hb1
    exact ⟨n1, le1.trans hb2⟩
  · refine ⟨hl, ?_⟩
    intro i pl pl' h1 h2
    obtain ⟨hb1, _⟩ := hb pl (List.get?_mem h1)
    exact (hp i pl pl' h1 h2 hb1).1

lemma resetPlayersForStart_health (l : List PlayerState) :
    ∀ i, ∀ pl ∈ resetPlayersForStart i l, pl.health = 100 := by
  induction l with
  | nil => intro i pl hmem; simp [resetPlayersForStart] at hmem
  | cons x xs ih =>
    intro i pl hmem
    unfold resetPlayersForStart at hmem
    rcases List.mem_cons.mp hmem with rfl | hmem
    · rfl
    · exact ih (i + 1) pl hmem

/-- C3: health stays inside the range 0 to 100 and never increases under
collision damage and area-effect damage (the only health-mutating combat
operations, under the nonnegative damage values the engine produces), player
movement and projectile integration leave health untouched, and the only
health increase in the system is the reset to 100 done by start_match. -/
theorem c3_health_invariant (phys : Physics) (m : MatchState)
    (w : Weapon) (dm : ℚ) (sid : String) (tx ty now : ℚ)
    (ps : List PlayerState) (pid : String) (inp : InputData)
    (hdm : 0 ≤ phys.damage_multiplier)
    (hpr : ∀ proj ∈ m.projectiles, 0 ≤ proj.damage)
    (hwd : 0 ≤ w.properties.damage) (hdm2 : 0 ≤ dm)
    (hb : healthBounded m.players) (hbps : healthBounded ps) :
    (healthBounded (checkCollisions phys m).players ∧
      healthsNonincreasing m.players (checkCollisions phys m).players) ∧
    (healthBounded (createAreaEffect w dm sid tx ty ps) ∧
      healthsNonincreasing ps (createAreaEffect w dm sid tx ty ps)) ∧
    (2 ≤ m.players.length → ∀ pl ∈ (startMatch m now).players, pl.health = 100) ∧
    ((handlePlayerInput m pid inp phys).players.map (fun pl => pl.health)) =
      m.players.map (fun pl => pl.health) ∧
    (updateProjectiles m phys now).players = m.players := by
  refine ⟨?_, ?_, ?_, ?_, rfl⟩
  · exact healthEvolution_bounds _ _
      (checkCollisions_healthEvolution phys m hdm hpr) hb
  · exact healthEvolution_bounds _ _
      (createAreaEffect_healthEvolution w dm sid tx ty ps
        (mul_nonneg (by exact_mod_cast hwd) hdm2)) hbps
  · intro h2 pl hmem
    unfold startMatch at hmem
    rw [if_neg (by omega)] at hmem
    exact resetPlayersForStart_health m.players 0 pl hmem
  · unfold handlePlayerInput
    split
    · rfl
    · split
      · rfl
      · split
        · rfl
        · exact updateFirst_map_eq _ _ _ _ (fun a => rfl)

/-- C10: a player whose alive flag is false is skipped by projectile
collision resolution and by area-effect damage: neither operation changes the
health or deaths of a dead player, and the player stays dead (so deaths can
only be incremented at the single moment of death). -/
theorem c10_dead_players_untouched (phys : Physics) (m : MatchState)
    (w : Weapon) (dm : ℚ) (sid : String) (tx ty : ℚ) (ps : List PlayerState) :
    deadUntouched m.players (checkCollisions phys m).players ∧
    deadUntouched ps (createAreaEffect w dm sid tx ty ps) := by
  exact ⟨checkCollisions_deadUntouched phys m,
    createAreaEffect_deadUntouched w dm sid tx ty ps⟩

/-! ## Concrete fixtures used by witnesses and counterexamples -/

/-- Fixture: an alive player at slot 0. -/
def alice : PlayerState :=
  { id := "alice", name := "Alice", health := 100, posx := 200, posy := 500,
    velx := 0, vely := 0, weapons := [], weapon_cooldown := 0,
    is_alive := true, kills := 0, deaths := 0 }

/-- Fixture: an alive player at slot 1. -/
def bob : PlayerState :=
  { alice with id := "bob", name := "Bob", posx := 1000 }

/-- Fixture: an ACTIVE two-player match with no projectiles. -/
def demoMatch : MatchState :=
  { id := "m1", status := MatchStatus.active, players := [alice, bob],
    projectiles := [], start_time := some 0, end_time := none, winner_id := none }

/-- Fixture: a melee weapon owned by alice, stats of the Fire Sword template. -/
def demoWeapon : Weapon :=
  { id := "w1", name := "Fire Sword", category := WeaponCategory.melee,
    properties := { damage := 65, speed := 70, range := 40, ammo := 1,
                    cooldown := 2000, special_effect := "burn_damage" },
    balance_score := 50, player_id := "alice" }

/-- Witness for C1: the concrete ACTIVE two-player match discharges the
non-FINISHED hypothesis, and the win-condition equivalence is obtained at it. -/
theorem c1_finished_transitions_witness :
    demoMatch.status ≠ MatchStatus.finished ∧
    ((checkWinCondition demoMatch 10).status = MatchStatus.finished ↔
      demoMatch.status = MatchStatus.active ∧
        ((alivePlayers demoMatch).length ≤ 1 ∨ demoMatch.get_duration 10 > 90)) :=
  ⟨by decide, (c1_finished_transitions demoMatch 10 "alice" "bob" "w"
      ⟨false, false, false⟩ basePhysics 0 0 0 (by decide)).1⟩

lemma healthBounded_demo : healthBounded demoMatch.players := by
  intro pl hpl
  simp [demoMatch] at hpl
  rcases hpl with rfl | rfl <;> exact ⟨by decide, by decide⟩

/-- Witness for C3 at the concrete match: the health bounds hypothesis holds
there and is preserved by collision resolution. -/
theorem c3_health_invariant_witness :
    healthBounded demoMatch.players ∧
    (healthBounded (checkCollisions basePhysics demoMatch).players ∧
      healthsNonincreasing demoMatch.players
        (checkCollisions basePhysics demoMatch).players) :=
  ⟨healthBounded_demo,
    (c3_health_invariant basePhysics demoMatch demoWeapon 1 "alice" 0 0 0
      demoMatch.players "alice" ⟨false, false, false⟩
      (by norm_num [basePhysics]) (by simp [demoMatch]) (by decide) (by norm_num)
      healthBounded_demo healthBounded_demo).1⟩

/-! ## C5: projectile hit damage -/

/-- Fixture: a projectile owned by alice sitting on the position of bob,
carrying the stored damage 17. -/
def projC5 : Projectile :=
  { id := "p", weapon_id := "w1", player_id := "alice", posx := 1000, posy := 500,
    velx := 0, vely := 0, damage := 17, created_at := 0, expires_at := 100 }

/-- Fixture: the demo match with the one projectile above. -/
def matchC5 : MatchState :=
  { demoMatch with projectiles := [projC5] }

/-- Fixture: base physics with an active damage multiplier of 1.5, as the
Giant Weapons modification produces. -/
def physC5 : Physics :=
  { basePhysics with damage_multiplier := 3/2 }

/-- C5 counterexample: with stored projectile damage 17 and damage
multiplier 1.5, the engine subtracts int(17 * 1.5) = 25 (truncation), so bob
ends at health 75, while rounding as the claim states would subtract
round(25.5) = 26 and leave 74. -/
theorem c5_round_counterexample :
    ((checkCollisions physC5 matchC5).players.map (fun pl => pl.health)) = [100, 75] ∧
    (100 : ℤ) - round ((17 : ℚ) * physC5.damage_multiplier) = 74 := by
  have hba : decide (("bob" : String) = "alice") = false := by rfl
  constructor
  · norm_num [checkCollisions, matchC5, demoMatch, physC5, basePhysics, collisionStep,
      hitTarget, eligibleTarget, collide, projC5, alice, bob, applyDamage, pyTrunc,
      updateFirst, removeFirst, List.find?, hba]
  · norm_num [physC5, basePhysics, round_eq]

lemma applyDamage_at_target (phys : Physics) (proj : Projectile)
    (target : PlayerState) (players : List PlayerState) (i : ℕ)
    (hi : players.get? i = some target) (hid : target.id ≠ proj.player_id)
    (hbefore : ∀ j, j < i → ∀ b, players.get? j = some b → b ≠ target) :
    (applyDamage phys proj target players).get? i =
      some (if max 0 (target.health - pyTrunc ((proj.damage : ℚ) * phys.damage_multiplier)) ≤ 0
        then { target with
          health := max 0 (target.health - pyTrunc ((proj.damage : ℚ) * phys.damage_multiplier)),
          is_alive := false, deaths := target.deaths + 1 }
        else { target with
          health := max 0 (target.health - pyTrunc ((proj.damage : ℚ) * phys.damage_multiplier)) }) := by
  have hb1 : ∀ j, j < i → ∀ b, players.get? j = some b →
      (fun q => decide (q = target)) b = false := by
    intro j hj b hb
    simpa using hbefore j hj b hb
  have h1 := updateFirst_get?_first (fun q => decide (q = target))
    (fun (q : PlayerState) =>
      if max 0 (target.health - pyTrunc ((proj.damage : ℚ) * phys.damage_multiplier)) ≤ 0 then
        { q with
          health := max 0 (target.health - pyTrunc ((proj.damage : ℚ) * phys.damage_multiplier)),
          is_alive := false, deaths := q.deaths + 1 }
      else { q with
        health := max 0 (target.health - pyTrunc ((proj.damage : ℚ) * phys.damage_multiplier)) })
    players i target hi (by simp) hb1
  simp only [] at h1
  by_cases hnh : max 0 (target.health -
      pyTrunc ((proj.damage : ℚ) * phys.damage_multiplier)) ≤ 0
  · simp only [if_pos hnh] at h1 ⊢
    simp only [applyDamage, if_pos hnh]
    rcases updateFirst_get? (fun (q : PlayerState) => decide (q.id = proj.player_id))
        (fun (q : PlayerState) => { q with kills := q.kills + 1 }) _ i with
      h | ⟨a, ha, ha', hpa⟩
    · rw [h]
      exact h1
    · rw [h1] at ha
      injection ha with ha
      subst ha
      simp at hpa
      exact absurd hpa hid
  · simp only [if_neg hnh] at h1 ⊢
    simp only [applyDamage, if_neg hnh]
    exact h1

lemma applyDamage_at_shooter (phys : Physics) (proj : Projectile)
    (target : PlayerState) (players : List PlayerState) (i s : ℕ)
    (b : PlayerState)
    (hi : players.get? i = some target) (hid : target.id ≠ proj.player_id)
    (hbefore : ∀ j, j < i → ∀ c, players.get? j = some c → c ≠ target)
    (hnh : max 0 (target.health - pyTrunc ((proj.damage : ℚ) * phys.damage_multiplier)) ≤ 0)
    (hs : players.get? s = some b) (hbid : b.id = proj.player_id)
    (hsbefore : ∀ j, j < s → ∀ c, players.get? j = some c → c.id ≠ proj.player_id) :
    (applyDamage phys proj target players).get? s =
      some { b with kills := b.kills + 1 } := by
  have hsi : s ≠ i := by
    intro h
    rw [h, hi] at hs
    injection hs with hs
    rw [← hs] at hbid
    exact hid hbid
  have hb1 : ∀ j, j < i → ∀ c, players.get? j = some c →
      (fun q => decide (q = target)) c = false := by
    intro j hj c hc
    simpa using hbefore j hj c hc
  have hother := updateFirst_get?_other (fun q => decide (q = target))
    (fun (q : PlayerState) =>
      if max 0 (target.health - pyTrunc ((proj.damage : ℚ) * phys.damage_multiplier)) ≤ 0 then
        { q with
          health := max 0 (target.health - pyTrunc ((proj.damage : ℚ) * phys.damage_multiplier)),
          is_alive := false, deaths := q.deaths + 1 }
      else { q with
        health := max 0 (target.health - pyTrunc ((proj.damage : ℚ) * phys.damage_multiplier)) })
    players i target hi (by simp) hb1
  have h1 := updateFirst_get?_first (fun q => decide (q = target))
    (fun (q : PlayerState) =>
      if max 0 (target.health - pyTrunc ((proj.damage : ℚ) * phys.damage_multiplier)) ≤ 0 then
        { q with
          health := max 0 (target.health - pyTrunc ((proj.damage : ℚ) * phys.damage_multiplier)),
          is_alive := false, deaths := q.deaths + 1 }
      else { q with
        health := max 0 (target.health - pyTrunc ((proj.damage : ℚ) * phys.damage_multiplier)) })
    players i target hi (by simp) hb1
  simp only [] at h1 hother
  simp only [if_pos hnh] at h1 hother ⊢
  simp only [applyDamage, if_pos hnh]
  refine updateFirst_get?_first _ _ _ s b ?_ (by simpa using hbid) ?_
  · rw [hother s hsi]
    exact hs
  · intro j hj c hc
    by_cases hji : j = i
    · subst hji
      rw [h1] at hc
      injection hc with hc
      subst hc
      simpa using hid
    · rw [hother j hji] at hc
      simpa using hsbefore j hj c hc

/-- C5 (amended): on a projectile-player hit the damage subtracted equals
int-truncation (toward zero, hence floor for the nonnegative values the
engine produces) of stored projectile damage times the CURRENT damage
multiplier - not arithmetic rounding; health is clamped at 0; a target
reaching 0 health is marked dead with deaths incremented and the first
player carrying the shooter id gains a kill; the projectile is removed; and
each projectile damages at most one player per tick, namely the first
eligible player in roster order.  (The stored projectile damage was itself
int(weapon damage times the multiplier at fire time), see createProjectile.) -/
theorem c5_hit_damage_amended (phys : Physics) (m : MatchState)
    (proj : Projectile) (target : PlayerState)
    (hproj : m.projectiles = [proj])
    (hfind : hitTarget proj m.players = some target) :
    target.is_alive = true ∧ target.id ≠ proj.player_id ∧ collide proj target = true ∧
    (checkCollisions phys m).projectiles = [] ∧
    (checkCollisions phys m).players = applyDamage phys proj target m.players ∧
    ∃ i, m.players.get? i = some target ∧
      (∀ j, j < i → ∀ b, m.players.get? j = some b →
        eligibleTarget proj b = false) ∧
      ∃ pl', (applyDamage phys proj target m.players).get? i = some pl' ∧
        pl'.health = max 0 (target.health -
          pyTrunc ((proj.damage : ℚ) * phys.damage_multiplier)) ∧
        (pl'.health ≤ 0 →
          pl'.is_alive = false ∧ pl'.deaths = target.deaths + 1 ∧
          ∀ s b, m.players.get? s = some b → b.id = proj.player_id →
            (∀ j, j < s → ∀ c, m.players.get? j = some c →
              c.id ≠ proj.player_id) →
            (applyDamage phys proj target m.players).get? s =
              some { b with kills := b.kills + 1 }) ∧
        (0 < pl'.health →
          pl' = { target with health := max 0 (target.health -
            pyTrunc ((proj.damage : ℚ) * phys.damage_multiplier)) }) := by
  have he : eligibleTarget proj target = true := List.find?_some hfind
  have halive : target.is_alive = true := eligibleTarget_alive proj target he
  have hid : target.id ≠ proj.player_id := by
    unfold eligibleTarget at he
    simp only [Bool.and_eq_true, decide_eq_true_eq] at he
    exact he.1.1
  have hcol : collide proj target = true := by
    unfold eligibleTarget at he
    simp only [Bool.and_eq_true] at he
    exact he.2
  have hcc : checkCollisions phys m =
      { m with players := applyDamage phys proj target m.players,
               projectiles := [] } := by
    unfold checkCollisions
    rw [hproj]
    simp [collisionStep, hfind, removeFirst]
  refine ⟨halive, hid, hcol, by rw [hcc], by rw [hcc], ?_⟩
  obtain ⟨i, hi, _, hbefore⟩ := find?_index (eligibleTarget proj) m.players target hfind
  have hbne : ∀ j, j < i → ∀ b, m.players.get? j = some b → b ≠ target := by
    intro j hj b hb hcontra
    subst hcontra
    rw [hbefore j hj b hb] at he
    exact Bool.false_ne_true he
  refine ⟨i, hi, hbefore, ?_⟩
  have hat := applyDamage_at_target phys proj target m.players i hi hid hbne
  by_cases hnh : max 0 (target.health -
      pyTrunc ((proj.damage : ℚ) * phys.damage_multiplier)) ≤ 0
  · rw [if_pos hnh] at hat
    refine ⟨_, hat, rfl, ?_, ?_⟩
    · intro _
      refine ⟨rfl, rfl, ?_⟩
      intro s b hs hbid hsbefore
      exact applyDamage_at_shooter phys proj target m.players i s b hi hid
        hbne hnh hs hbid hsbefore
    · intro hpos
      exact absurd hnh (by simpa using hpos)
  · rw [if_neg hnh] at hat
    refine ⟨_, hat, rfl, ?_, fun _ => rfl⟩
    intro hcontra
    exact absurd hcontra (by simpa using hnh)

/-- Witness for C5: at the concrete one-projectile match the hit on bob is
found, the hypotheses hold, and the projectile is removed. -/
theorem c5_hit_damage_amended_witness :
    hitTarget projC5 matchC5.players = some bob ∧
    (checkCollisions physC5 matchC5).projectiles = [] := by
  have hfind : hitTarget projC5 matchC5.players = some bob := by
    have hba : decide (("bob" : String) = "alice") = false := by rfl
    norm_num [hitTarget, matchC5, demoMatch, projC5, alice, bob, eligibleTarget,
      collide, List.find?, hba]
  exact ⟨hfind,
    (c5_hit_damage_amended physC5 matchC5 projC5 bob rfl hfind).2.2.2.1⟩

/-! ## C6: weapon stat bounds -/

lemma foldl_best_mem (score : WeaponTemplate → ℤ) (l : List WeaponTemplate) :
    ∀ acc : Option WeaponTemplate × ℤ,
      (l.foldl (fun a t => if score t > a.2 then (some t, score t) else a) acc).1 = acc.1 ∨
      ∃ t ∈ l,
        (l.foldl (fun a t => if score t > a.2 then (some t, score t) else a) acc).1 =
          some t := by
  induction l with
  | nil => intro acc; left; rfl
  | cons x xs ih =>
    intro acc
    rw [List.foldl_cons]
    rcases ih (if score x > acc.2 then (some x, score x) else acc) with h | ⟨t, ht, h⟩
    · rw [h]
      by_cases hc : score x > acc.2
      · right
        refine ⟨x, by simp, ?_⟩
        rw [if_pos hc]
      · left
        rw [if_neg hc]
    · right
      exact ⟨t, by simp [ht], h⟩

lemma findBestTemplate_mem (prompt : String) :
    findBestTemplate prompt ∈ weaponTemplates := by
  unfold findBestTemplate
  simp only []
  rcases foldl_best_mem (templateScore prompt) weaponTemplates (none, 0) with h | ⟨t, ht, h⟩
  · rw [h]
    show fireSwordTemplate ∈ weaponTemplates
    simp [weaponTemplates]
  · rw [h]
    exact ht

lemma weaponTemplates_bounds :
    ∀ t ∈ weaponTemplates,
      15 ≤ t.damage ∧ t.damage ≤ 85 ∧ 20 ≤ t.speed ∧ t.speed ≤ 95 ∧
      30 ≤ t.range ∧ t.range ≤ 180 ∧ 1 ≤ t.ammo ∧ t.ammo ≤ 25 ∧
      1500 ≤ t.cooldown ∧ t.cooldown ≤ 4000 := by
  decide

lemma pyTrunc_le_of_le (q : ℚ) (b : ℤ) (h0 : 0 ≤ q) (h : q ≤ (b : ℚ)) :
    pyTrunc q ≤ b := by
  rw [pyTrunc_of_nonneg q h0]
  calc ⌊q⌋ ≤ ⌊(b : ℚ)⌋ := Int.floor_le_floor h
    _ = b := Int.floor_intCast b

lemma le_pyTrunc_of_le (a : ℤ) (q : ℚ) (h0 : 0 ≤ q) (h : (a : ℚ) ≤ q) :
    a ≤ pyTrunc q := by
  rw [pyTrunc_of_nonneg q h0]
  exact Int.le_floor.mpr h

/-- C6 (amended): the template-fallback path always satisfies
damage 15..85, speed 20..95, range 30..180, cooldown 1500..4000, but its ammo
can be as low as 1 (ammo 1..25), because the templates are not ammo-clamped;
the emergency weapon satisfies all the claimed ranges; the AI path clamps all
five stats into the claimed ranges BEFORE the balance pass, but the nerf pass
re-clamps nothing, leaving damage in 12..85 and cooldown in 1500..4800, so a
nerfed cooldown may exceed 4000 (speed, range and ammo are untouched by the
nerf). -/
theorem c6_weapon_stat_bounds_amended :
    (∀ prompt variation,
      15 ≤ (generateFromTemplate prompt variation).damage ∧
      (generateFromTemplate prompt variation).damage ≤ 85 ∧
      20 ≤ (generateFromTemplate prompt variation).speed ∧
      (generateFromTemplate prompt variation).speed ≤ 95 ∧
      30 ≤ (generateFromTemplate prompt variation).range ∧
      (generateFromTemplate prompt variation).range ≤ 180 ∧
      1 ≤ (generateFromTemplate prompt variation).ammo ∧
      (generateFromTemplate prompt variation).ammo ≤ 25 ∧
      1500 ≤ (generateFromTemplate prompt variation).cooldown ∧
      (generateFromTemplate prompt variation).cooldown ≤ 4000) ∧
    (15 ≤ emergencyWeaponProperties.damage ∧ emergencyWeaponProperties.damage ≤ 85 ∧
      20 ≤ emergencyWeaponProperties.speed ∧ emergencyWeaponProperties.speed ≤ 95 ∧
      30 ≤ emergencyWeaponProperties.range ∧ emergencyWeaponProperties.range ≤ 180 ∧
      3 ≤ emergencyWeaponProperties.ammo ∧ emergencyWeaponProperties.ammo ≤ 25 ∧
      1500 ≤ emergencyWeaponProperties.cooldown ∧
      emergencyWeaponProperties.cooldown ≤ 4000) ∧
    (∀ d s r a c e,
      15 ≤ (aiClampProperties d s r a c e).damage ∧
      (aiClampProperties d s r a c e).damage ≤ 85 ∧
      20 ≤ (aiClampProperties d s r a c e).speed ∧
      (aiClampProperties d s r a c e).speed ≤ 95 ∧
      30 ≤ (aiClampProperties d s r a c e).range ∧
      (aiClampProperties d s r a c e).range ≤ 180 ∧
      3 ≤ (aiClampProperties d s r a c e).ammo ∧
      (aiClampProperties d s r a c e).ammo ≤ 25 ∧
      1500 ≤ (aiClampProperties d s r a c e).cooldown ∧
      (aiClampProperties d s r a c e).cooldown ≤ 4000) ∧
    (∀ p : WeaponProperties,
      15 ≤ p.damage → p.damage ≤ 85 → 1500 ≤ p.cooldown → p.cooldown ≤ 4000 →
        12 ≤ (aiBalancePass p).damage ∧ (aiBalancePass p).damage ≤ 85 ∧
        1500 ≤ (aiBalancePass p).cooldown ∧ (aiBalancePass p).cooldown ≤ 4800 ∧
        (aiBalancePass p).speed = p.speed ∧ (aiBalancePass p).range = p.range ∧
        (aiBalancePass p).ammo = p.ammo) := by
  refine ⟨?_, by decide, ?_, ?_⟩
  · intro prompt variation
    obtain ⟨hd1, hd2, hs1, hs2, hr1, hr2, ha1, ha2, hc1, hc2⟩ :=
      weaponTemplates_bounds (findBestTemplate prompt) (findBestTemplate_mem prompt)
    unfold generateFromTemplate
    refine ⟨?_, ?_, ?_, ?_, hr1, hr2, ha1, ha2, hc1, hc2⟩ <;> simp
  · intro d s r a c e
    unfold aiClampProperties
    refine ⟨?_, ?_, ?_, ?_, ?_, ?_, ?_, ?_, ?_, ?_⟩ <;> simp
  · intro p hd1 hd2 hc1 hc2
    unfold aiBalancePass
    split
    · unfold applyBalanceNerf
      have hdq : (0 : ℚ) ≤ (p.damage : ℚ) * (8/10) := by
        have h15 : (15 : ℚ) ≤ (p.damage : ℚ) := by exact_mod_cast hd1
        linarith
      have hcq : (0 : ℚ) ≤ (p.cooldown : ℚ) * (12/10) := by
        have : (0 : ℚ) ≤ (p.cooldown : ℚ) := by
          have : (1500 : ℚ) ≤ (p.cooldown : ℚ) := by exact_mod_cast hc1
          linarith
        positivity
      have hdlo : (12 : ℚ) ≤ (p.damage : ℚ) * (8/10) := by
        have : (15 : ℚ) ≤ (p.damage : ℚ) := by exact_mod_cast hd1
        linarith
      have hdhi : (p.damage : ℚ) * (8/10) ≤ ((85 : ℤ) : ℚ) := by
        have : (p.damage : ℚ) ≤ 85 := by exact_mod_cast hd2
        push_cast
        linarith
      have hclo : (1500 : ℚ) ≤ (p.cooldown : ℚ) * (12/10) := by
        have : (1500 : ℚ) ≤ (p.cooldown : ℚ) := by exact_mod_cast hc1
        linarith
      have hchi : (p.cooldown : ℚ) * (12/10) ≤ ((4800 : ℤ) : ℚ) := by
        have : (p.cooldown : ℚ) ≤ 4000 := by exact_mod_cast hc2
        push_cast
        linarith
      refine ⟨le_pyTrunc_of_le 12 _ hdq (by exact_mod_cast hdlo),
        pyTrunc_le_of_le _ 85 hdq hdhi,
        le_pyTrunc_of_le 1500 _ hcq (by exact_mod_cast hclo),
        pyTrunc_le_of_le _ 4800 hcq hchi, rfl, rfl, rfl⟩
    · exact ⟨by omega, by omega, hc1, by omega, rfl, rfl, rfl⟩

/-- C6 counterexample: the prompt "fire sword" selects the Fire Sword
template whose ammo 1 is below the claimed lower bound 3, and the maximal
clamped stat block with the area_explosion effect triggers the balance nerf,
raising cooldown to 4800, above the claimed upper bound 4000. -/
theorem c6_weapon_stat_bounds_counterexample :
    (generateFromTemplate "fire sword" 0).ammo < 3 ∧
    4000 < (aiBalancePass (aiClampProperties 85 95 180 10 4000 "area_explosion")).cooldown := by
  constructor
  · decide
  · have hb1 : ("area_explosion" : String) ≠ "burn_damage" := by decide
    have hb2 : ("area_explosion" : String) ≠ "freeze_target" := by decide
    have heff : effectMultiplier "area_explosion" = 13/10 := by
      norm_num [effectMultiplier, hb1, hb2]
    have hscore : calculateBalanceScore
        { damage := 85, speed := 95, range := 180, ammo := 10,
          cooldown := 4000, special_effect := "area_explosion" } = 100 := by
      norm_num [calculateBalanceScore, heff, min_def, max_def]
    norm_num [aiBalancePass, hscore, applyBalanceNerf, aiClampProperties, pyTrunc]

/-! ## C7, C8: weapon-generation request handling -/

/-- C8 (amended): the handler rejects a prompt as invalid exactly when the
stripped prompt is empty or longer than 20 characters (the error text of the
handler speaks of 20 words but the check counts characters, and the claimed
single authoritative 100-character bound appears nowhere in this code path);
every other prompt proceeds past validation. -/
theorem c8_prompt_validation_amended (prompt : String) (now : ℚ)
    (matchFound : Bool) (playerFound : Option PlayerState) (genSucceeds : Bool) :
    handle_weapon_generation prompt now matchFound playerFound genSucceeds =
        GenOutcome.invalidPrompt ↔
      prompt.data.isEmpty = true ∨ prompt.data.length > 20 := by
  unfold handle_weapon_generation
  by_cases hc : (prompt.data.isEmpty || decide (prompt.data.length > 20)) = true
  · rw [if_pos hc]
    constructor
    · intro _
      simpa using hc
    · intro _
      rfl
  · rw [if_neg hc]
    constructor
    · intro h
      exfalso
      revert h
      split
      · intro h
        cases h
      · split
        · intro h
          cases h
        · split
          · intro h
            cases h
          · split
            · intro h
              cases h
            · intro h
              cases h
    · intro hd
      exact absurd (by simpa using hd) hc

/-- Fixture: a 30-character prompt. -/
def longPrompt : String := "abcdefghijklmnopqrstuvwxyz0123"

/-- C8 counterexample: a nonempty 30-character prompt, well within the
claimed 100-character bound, is nevertheless rejected as invalid by the
handler, whose actual bound is 20 characters. -/
theorem c8_prompt_validation_counterexample :
    handle_weapon_generation longPrompt 0 true none true = GenOutcome.invalidPrompt ∧
    longPrompt.data.isEmpty = false ∧ longPrompt.data.length ≤ 100 := by
  refine ⟨by decide, by decide, by decide⟩

/-- C7 (amended): a successful generation sets the weapon cooldown of the
player to now + 12 seconds; a second request from the same player strictly
within those 12 seconds is rejected as rate-limited, reporting
int(cooldown - now) remaining seconds - a NONNEGATIVE value that equals 0
when less than one second remains, rather than the strictly positive value
the claim asserts. -/
theorem c7_rate_limit_amended (prompt : String) (t t2 : ℚ) (pl : PlayerState)
    (hprompt : (prompt.data.isEmpty || decide (prompt.data.length > 20)) = false)
    (hready : ¬ pl.weapon_cooldown > t) (hwithin : t2 < t + 12) :
    handle_weapon_generation prompt t true (some pl) true =
      GenOutcome.success (t + 12) ∧
    handle_weapon_generation prompt t2 true
        (some { pl with weapon_cooldown := t + 12 }) true =
      GenOutcome.rateLimited (pyTrunc (t + 12 - t2)) ∧
    0 ≤ pyTrunc (t + 12 - t2) := by
  refine ⟨?_, ?_, ?_⟩
  · unfold handle_weapon_generation
    rw [if_neg (by rw [hprompt]; simp), if_neg (by simp : ¬ (true = false))]
    show (if pl.weapon_cooldown > t then
        GenOutcome.rateLimited (pyTrunc (pl.weapon_cooldown - t))
      else if true = true then GenOutcome.success (t + 12)
      else GenOutcome.generationFailed) = GenOutcome.success (t + 12)
    rw [if_neg hready, if_pos rfl]
  · unfold handle_weapon_generation
    rw [if_neg (by rw [hprompt]; simp), if_neg (by simp : ¬ (true = false))]
    show (if (t + 12 : ℚ) > t2 then
        GenOutcome.rateLimited (pyTrunc (t + 12 - t2))
      else if true = true then GenOutcome.success (t2 + 12)
      else GenOutcome.generationFailed) = GenOutcome.rateLimited (pyTrunc (t + 12 - t2))
    rw [if_pos hwithin]
  · exact pyTrunc_nonneg _ (by linarith)

/-- Witness for C7: a first request by alice at time 0 succeeds and sets the
cooldown to 12; a second request at time 6 is rejected with 6 seconds left. -/
theorem c7_rate_limit_amended_witness :
    handle_weapon_generation "x" 0 true (some alice) true =
      GenOutcome.success (0 + 12) ∧
    handle_weapon_generation "x" 6 true
        (some { alice with weapon_cooldown := 0 + 12 }) true =
      GenOutcome.rateLimited (pyTrunc (0 + 12 - 6)) ∧
    0 ≤ pyTrunc ((0 : ℚ) + 12 - 6) :=
  c7_rate_limit_amended "x" 0 6 alice (by decide) (by norm_num [alice]) (by norm_num)

/-- C7 counterexample: a second request 11.5 seconds after generation (so
still within the 12-second window, cooldown 12 at clock 11.5) is rejected
with int(0.5) = 0 remaining seconds: the reported remaining value is not
positive. -/
theorem c7_positive_remaining_counterexample :
    handle_weapon_generation "x" (23/2) true
        (some { alice with weapon_cooldown := 12 }) true =
      GenOutcome.rateLimited 0 ∧
    ¬ ((0 : ℤ) > 0) := by
  constructor
  · have hv : (("x" : String).data.isEmpty ||
        decide (("x" : String).data.length > 20)) = false := by decide
    unfold handle_weapon_generation
    rw [if_neg (by rw [hv]; simp), if_neg (by simp : ¬ (true = false))]
    show (if (12 : ℚ) > 23/2 then
        GenOutcome.rateLimited (pyTrunc ((12 : ℚ) - 23/2))
      else if true = true then GenOutcome.success (23/2 + 12)
      else GenOutcome.generationFailed) = GenOutcome.rateLimited 0
    rw [if_pos (by norm_num : (12 : ℚ) > 23/2)]
    norm_num [pyTrunc]
  · decide

/-! ## C9: weapon use is not gated on the cooldown -/

lemma areaLoop_id_map (w : Weapon) (dm : ℚ) (sid : String) (tx ty : ℚ)
    (l : List PlayerState) :
    (areaLoop w dm sid tx ty l).1.map (fun q => q.id) = l.map (fun q => q.id) := by
  induction l with
  | nil => rfl
  | cons pl rest ih =>
    simp only [areaLoop]
    split
    · split <;> simp [ih]
    · simp [ih]

lemma createAreaEffect_id_map (w : Weapon) (dm : ℚ) (sid : String) (tx ty : ℚ)
    (l : List PlayerState) :
    (createAreaEffect w dm sid tx ty l).map (fun q => q.id) =
      l.map (fun q => q.id) := by
  unfold createAreaEffect
  simp only []
  refine (updateFirst_map_eq _ _ _ _ ?_).trans (areaLoop_id_map w dm sid tx ty l)
  intro a
  rfl

/-- The cooldown-reset tail of use_weapon, as one operation on the match. -/
def setWeaponCooldown (pid : String) (v : ℚ) (m1 : MatchState) : MatchState :=
  let players2 := updateFirst (fun q => q.id = pid)
    (fun q => { q with weapon_cooldown := v }) m1.players
  { m1 with players := players2 }

lemma setCooldown_at (pid : String) (v : ℚ) (l l2 : List PlayerState) (i : ℕ)
    (pl : PlayerState) (hi : l.get? i = some pl) (hpid : pl.id = pid)
    (hbefore : ∀ j, j < i → ∀ c, l.get? j = some c → c.id ≠ pid)
    (hids : l2.map (fun q => q.id) = l.map (fun q => q.id)) :
    ∃ pl2, (updateFirst (fun q => decide (q.id = pid))
        (fun q => { q with weapon_cooldown := v }) l2).get? i = some pl2 ∧
      pl2.weapon_cooldown = v := by
  have hlen : l2.length = l.length := by
    have := congrArg List.length hids
    simpa using this
  have hil : i < l.length := (List.get?_eq_some.mp hi).1
  obtain ⟨b, hb⟩ := get?_some_of_lt (l := l2) (i := i) (by omega)
  have hbid : b.id = pid := by
    have h1 := congrArg (fun s => s.get? i) hids
    simp only [List.get?_map, hb, hi, Option.map_some] at h1
    injection h1 with h1
    simp only [] at h1
    rw [h1, hpid]
  have hb2 : ∀ j, j < i → ∀ c, l2.get? j = some c →
      (fun q => decide (q.id = pid)) c = false := by
    intro j hj c hc
    have h1 := congrArg (fun s => s.get? j) hids
    have hjl : j < l.length := by omega
    obtain ⟨d, hd⟩ := get?_some_of_lt (l := l) (i := j) hjl
    simp only [List.get?_map, hc, hd, Option.map_some] at h1
    injection h1 with h1
    simp only [] at h1
    have := hbefore j hj d hd
    simp only [decide_eq_false_iff_not]
    rw [h1]
    exact this
  exact ⟨_, updateFirst_get?_first _ _ l2 i b hb (by simp [hbid]) hb2, rfl⟩

/-- C9 (amended): use_weapon never reads the weapon-cooldown timestamp, which
only gates generation: in an ACTIVE match an alive owner fires even while now
is strictly before the cooldown.  Projectile and magic weapons spawn exactly
one projectile (when the computed distance is nonzero), area_effect weapons
apply area damage to the roster, melee and utility weapons perform no action
(the claim asserts every weapon spawns a projectile or applies area damage);
in every case the weapon cooldown of the acting player is reset to
now + cooldown/1000 times the cooldown multiplier. -/
theorem c9_use_weapon_not_gated (m : MatchState) (pid wid : String)
    (tx ty dist now : ℚ) (phys : Physics) (pl : PlayerState) (w : Weapon)
    (hst : m.status = MatchStatus.active)
    (hpl : getPlayerState m pid = some pl)
    (halive : pl.is_alive = true)
    (hw : findWeapon pl.weapons wid = some w)
    (hcool : now < pl.weapon_cooldown) :
    ((w.category = WeaponCategory.projectile ∨ w.category = WeaponCategory.magic) →
      dist ≠ 0 →
      (useWeapon m pid wid tx ty dist phys now).projectiles.length =
        m.projectiles.length + 1) ∧
    (w.category = WeaponCategory.area_effect →
      (useWeapon m pid wid tx ty dist phys now).players =
        updateFirst (fun q => decide (q.id = pid))
          (fun q => { q with weapon_cooldown :=
            now + (w.properties.cooldown : ℚ) / 1000 * phys.cooldown_multiplier })
          (createAreaEffect w phys.damage_multiplier pl.id tx ty m.players)) ∧
    ((w.category = WeaponCategory.melee ∨ w.category = WeaponCategory.utility) →
      (useWeapon m pid wid tx ty dist phys now).projectiles = m.projectiles ∧
      ((useWeapon m pid wid tx ty dist phys now).players.map (fun q => q.health)) =
        m.players.map (fun q => q.health)) ∧
    ∃ i, m.players.get? i = some pl ∧
      ∃ pl2, (useWeapon m pid wid tx ty dist phys now).players.get? i = some pl2 ∧
        pl2.weapon_cooldown =
          now + (w.properties.cooldown : ℚ) / 1000 * phys.cooldown_multiplier := by
  have huse : useWeapon m pid wid tx ty dist phys now =
      setWeaponCooldown pid
        (now + (w.properties.cooldown : ℚ) / 1000 * phys.cooldown_multiplier)
        (if w.category = WeaponCategory.projectile ∨ w.category = WeaponCategory.magic then
          createProjectile m pl w tx ty dist phys now
        else if w.category = WeaponCategory.area_effect then
          { m with players := createAreaEffect w phys.damage_multiplier pl.id tx ty m.players }
        else m) := by
    unfold useWeapon setWeaponCooldown
    rw [if_neg (by simp [hst])]
    simp only [hpl]
    rw [if_neg (by simp [halive])]
    simp only [hw]
  obtain ⟨i, hi, hpdec, hbeforeDec⟩ :=
    find?_index (fun q => decide (q.id = pid)) m.players pl
      (show m.players.find? (fun q => decide (q.id = pid)) = some pl from hpl)
  have hpid : pl.id = pid := by simpa using hpdec
  have hbefore : ∀ j, j < i → ∀ c, m.players.get? j = some c → c.id ≠ pid := by
    intro j hj c hc
    simpa using hbeforeDec j hj c hc
  refine ⟨?_, ?_, ?_, ?_⟩
  · intro hcat hdist
    rw [huse]
    simp only [if_pos hcat]
    unfold createProjectile
    rw [if_neg hdist]
    simp [setWeaponCooldown]
  · intro hcat
    have hcat2 : ¬ (w.category = WeaponCategory.projectile ∨
        w.category = WeaponCategory.magic) := by
      rw [hcat]
      simp
    rw [huse]
    simp only [if_neg hcat2, if_pos hcat]
    rfl
  · intro hcat
    have hcat2 : ¬ (w.category = WeaponCategory.projectile ∨
        w.category = WeaponCategory.magic) := by
      rcases hcat with h | h <;> rw [h] <;> simp
    have hcat3 : ¬ w.category = WeaponCategory.area_effect := by
      rcases hcat with h | h <;> rw [h] <;> simp
    rw [huse]
    simp only [if_neg hcat2, if_neg hcat3]
    exact ⟨rfl, updateFirst_map_eq _ _ _ _ (fun a => rfl)⟩
  · refine ⟨i, hi, ?_⟩
    rw [huse]
    by_cases hcat : w.category = WeaponCategory.projectile ∨
        w.category = WeaponCategory.magic
    · simp only [if_pos hcat, setWeaponCooldown]
      have hproj : (createProjectile m pl w tx ty dist phys now).players =
          m.players := by
        unfold createProjectile
        split <;> rfl
      refine setCooldown_at pid _ m.players
        (createProjectile m pl w tx ty dist phys now).players i pl hi hpid hbefore ?_
      rw [hproj]
    · by_cases hcat2 : w.category = WeaponCategory.area_effect
      · simp only [if_neg hcat, if_pos hcat2, setWeaponCooldown]
        exact setCooldown_at pid _ m.players _ i pl hi hpid hbefore
          (createAreaEffect_id_map w phys.damage_multiplier pl.id tx ty m.players)
      · simp only [if_neg hcat, if_neg hcat2, setWeaponCooldown]
        exact setCooldown_at pid _ m.players m.players i pl hi hpid hbefore rfl

/-- Fixture: alice owning the melee demo weapon while her weapon cooldown
lies far in the future. -/
def meleeAlice : PlayerState :=
  { alice with weapons := [demoWeapon], weapon_cooldown := 100 }

/-- Fixture: the demo match with the armed alice. -/
def matchC9 : MatchState :=
  { demoMatch with players := [meleeAlice, bob] }

/-- C9 counterexample: in an ACTIVE match, an alive player using an owned
MELEE weapon neither spawns a projectile nor changes any health - the claim
that use_weapon always spawns a projectile or applies area damage fails for
the melee and utility categories (only the cooldown reset happens). -/
theorem c9_use_weapon_counterexample :
    matchC9.status = MatchStatus.active ∧
    getPlayerState matchC9 "alice" = some meleeAlice ∧
    meleeAlice.is_alive = true ∧
    findWeapon meleeAlice.weapons "w1" = some demoWeapon ∧
    (10 : ℚ) < meleeAlice.weapon_cooldown ∧
    (useWeapon matchC9 "alice" "w1" 600 500 5 basePhysics 10).projectiles = [] ∧
    ((useWeapon matchC9 "alice" "w1" 600 500 5 basePhysics 10).players.map
      (fun q => q.health)) = matchC9.players.map (fun q => q.health) := by
  refine ⟨rfl, by decide, rfl, by decide, by decide, ?_, ?_⟩
  · decide
  · decide

/-- Witness for C9: the hypotheses hold at the armed-alice fixture even
though the clock 10 is before the cooldown 100, and the melee conjunct of the
theorem applies there. -/
theorem c9_use_weapon_not_gated_witness :
    (10 : ℚ) < meleeAlice.weapon_cooldown ∧
    ((useWeapon matchC9 "alice" "w1" 600 500 5 basePhysics 10).projectiles =
        matchC9.projectiles ∧
      ((useWeapon matchC9 "alice" "w1" 600 500 5 basePhysics 10).players.map
        (fun q => q.health)) = matchC9.players.map (fun q => q.health)) :=
  ⟨by decide,
    (c9_use_weapon_not_gated matchC9 "alice" "w1" 600 500 5 10 basePhysics
      meleeAlice demoWeapon rfl (by decide) rfl (by decide) (by decide)).2.2.1
      (Or.inl rfl)⟩

end PvP
